import Mathlib

set_option linter.unusedVariables false

/-!
Shallow embedding of the retry/backoff request layer of the Timesketch API
client (src/api_client/python/timesketch_api_client/client.py) and of the
listing/creation operations built on it.

The transport is modelled as an oracle: a function from the index of the
HTTP round trip issued by an operation (0-indexed) to the outcome of that
round trip.  Each operation is translated into a function producing the
trace of observable events (sleeps and HTTP calls, in order) together with
the operation outcome (a returned value or the Python exception raised).

Time is measured in milliseconds, so the 0.5 s backoff base of the source
becomes 500 ms and the schedule 0.5 * 2^(n-2) seconds becomes
500 * 2^(n-2) milliseconds.
-/

/-- Decoded JSON values, restricted to the shapes the client inspects:
null, integers, strings, arrays and string-keyed objects. -/
inductive JVal where
  | null : JVal
  | nat : Nat → JVal
  | str : String → JVal
  | arr : List JVal → JVal
  | dict : List (String × JVal) → JVal

/-- Python truthiness of a decoded JSON value: None, 0, "", [] and \x7b\x7d
are falsy, everything else is truthy. -/
def JVal.truthy : JVal → Bool
  | .null => false
  | .nat n => n != 0
  | .str s => s != ""
  | .arr xs => !xs.isEmpty
  | .dict fs => !fs.isEmpty

/-- Lookup of a key in the field list of a JSON object. -/
def lookupField : List (String × JVal) → String → Option JVal
  | [], _ => none
  | (k, v) :: rest, key => if k = key then some v else lookupField rest key

/-- Python d[key] presence test / access on a JSON value known to be an
object; none when the value is not an object or lacks the key. -/
def JVal.get? : JVal → String → Option JVal
  | .dict fs, key => lookupField fs key
  | _, _ => none

/-- Python dict.get(key, default): the value stored at the key, or the
default when the key is absent. -/
def JVal.getD (j : JVal) (key : String) (dflt : JVal) : JVal :=
  (j.get? key).getD dflt

/-- Python exception classes the modelled code can raise. -/
inductive PyErr where
  | connectionError : PyErr
  | runtimeError : PyErr
  | valueError : PyErr
  | indexError : PyErr
  | keyError : PyErr
  | typeError : PyErr
deriving DecidableEq

/-- Result of one HTTP round trip issued through the session: either the
transport raises a connection error, or the server answers with a status
code and a body (none when the body does not decode as JSON). -/
inductive HttpResult where
  | connFail : HttpResult
  | resp : Nat → Option JVal → HttpResult

/-- Observable events of one operation, in order: backoff sleeps (in
milliseconds) and the HTTP round trips issued.  fetchResource is the
spec-modelled follow-up fetch of a freshly created resource by its id. -/
inductive Event where
  | sleep : Nat → Event
  | httpGet : String → Event
  | httpGetPage : String → Nat → Event
  | httpPost : String → Event
  | fetchResource : JVal → Event

/-- An event is a network round trip (everything except a sleep). -/
def Event.isHttp : Event → Bool
  | .sleep _ => false
  | _ => true

/-- An event is a POST. -/
def Event.isPost : Event → Bool
  | .httpPost _ => true
  | _ => false

/-- Milliseconds slept, for sleep events. -/
def Event.sleepMs : Event → Option Nat
  | .sleep ms => some ms
  | _ => none

/-- Number of HTTP round trips in a trace. -/
def httpCount (tr : List Event) : Nat := tr.countP (fun e => e.isHttp)

/-- Number of POST round trips in a trace. -/
def postCount (tr : List Event) : Nat := tr.countP (fun e => e.isPost)

/-- The sleeps of a trace, in order, in milliseconds. -/
def sleepsOf (tr : List Event) : List Nat := tr.filterMap Event.sleepMs

/-- Modelled from the spec: definitions.HTTP_STATUS_CODE_20X (the
definitions module is not under src/).  Per the spec, success is signaled
by an HTTP status in the 200-299 range ("20x"). -/
def is20x (status : Nat) : Bool := 200 ≤ status && status ≤ 299

/-- Modelled from the spec: error.get_response_json (the error module is
not under src/).  Per the spec and the docstrings at the call sites it raises
RuntimeError when the status is outside the 20x success range, ValueError
when the body cannot be decoded as JSON, and otherwise returns the decoded
payload. -/
def get_response_json (status : Nat) (body : Option JVal) : Except PyErr JVal :=
  if is20x status then
    match body with
    | none => .error .valueError
    | some j => .ok j
  else .error .runtimeError

/-- Python d[key] with a string key: the stored value for a dict (KeyError
when the key is absent), TypeError for every non-dict value (including
strings and lists, whose indices must be integers). -/
def dictField (d : JVal) (key : String) : Except PyErr JVal :=
  match d with
  | .dict fs =>
      match lookupField fs key with
      | some v => .ok v
      | none => .error .keyError
  | _ => .error .typeError

/-- Python X[0]: the first element of a list (IndexError when empty), a
KeyError for a dict (JSON object keys are strings, so the int key 0 is
absent), the first character of a string as a 1-character string
(IndexError when the string is empty), and TypeError for values that are
not subscriptable (None and integers). -/
def pySubscript0 : JVal → Except PyErr JVal
  | .arr (x :: _) => .ok x
  | .arr [] => .error .indexError
  | .dict _ => .error .keyError
  | .str s =>
      match s.data with
      | [] => .error .indexError
      | c :: _ => .ok (.str (String.mk [c]))
  | .nat _ => .error .typeError
  | .null => .error .typeError

/-- Python iteration (for x in V): a list yields its elements, a dict its
keys (strings, in order), a string its characters as 1-character strings;
None and integers are not iterable and raise TypeError.  An empty dict or
string yields the empty sequence without error. -/
def pyIterate : JVal → Except PyErr (List JVal)
  | .arr xs => .ok xs
  | .dict fs => .ok (fs.map (fun kv => JVal.str kv.1))
  | .str s => .ok (s.data.map (fun c => JVal.str (String.mk [c])))
  | .nat _ => .error .typeError
  | .null => .error .typeError

/-- client.py line 70: default retry count for operations that attempt a
retry. -/
def DEFAULT_RETRY_COUNT : Nat := 5

/-- Resource path constant for the sketches endpoint. -/
def sketchesUri : String := "sketches/"

/-- Resource path constant for the users endpoint. -/
def usersUri : String := "users/"

/-- Resource path constant for the sigmarules endpoint. -/
def sigmarulesUri : String := "sigmarules/"

/-- Resource path constant for the searchindices endpoint. -/
def searchindicesUri : String := "searchindices/"

/-- The backoff sleep of fetch_resource_data (client.py lines 405-412):
before attempt number `attempt` (1-indexed), when attempt > 1, the loop
sleeps 0.5 * 2^(attempt - 2) seconds, i.e. 500 * 2^(attempt - 2) ms. -/
def fetchSleep (attempt : Nat) : List Event :=
  if attempt > 1 then [Event.sleep (500 * 2 ^ (attempt - 2))] else []

/-- The retry loop of TimesketchApi.fetch_resource_data (client.py lines
399-472), entered at 1-indexed attempt number `attempt`.  Each iteration:
optional backoff sleep, a GET (which may raise a connection error),
error.get_response_json (RuntimeError for non-20x, ValueError for a JSON
decode failure), truthiness check of the decoded result.  A truthy result
is returned at once.  Any of the four failures re-raises when
attempt >= DEFAULT_RETRY_COUNT (a falsy payload raises RuntimeError) and
otherwise loops back for the next attempt. -/
def fetchFrom (session : Nat → HttpResult) (resource_uri : String)
    (attempt : Nat) : List Event × Except PyErr JVal :=
  let issued : List Event := fetchSleep attempt ++ [Event.httpGet resource_uri]
  match session (attempt - 1) with
  | .connFail =>
      if h : DEFAULT_RETRY_COUNT ≤ attempt then
        (issued, .error .connectionError)
      else
        let rest := fetchFrom session resource_uri (attempt + 1)
        (issued ++ rest.1, rest.2)
  | .resp status body =>
      match get_response_json status body with
      | .error e =>
          if h : DEFAULT_RETRY_COUNT ≤ attempt then
            (issued, .error e)
          else
            let rest := fetchFrom session resource_uri (attempt + 1)
            (issued ++ rest.1, rest.2)
      | .ok result =>
          if result.truthy then
            (issued, .ok result)
          else if h : DEFAULT_RETRY_COUNT ≤ attempt then
            (issued, .error .runtimeError)
          else
            let rest := fetchFrom session resource_uri (attempt + 1)
            (issued ++ rest.1, rest.2)
termination_by DEFAULT_RETRY_COUNT + 1 - attempt
decreasing_by
  all_goals simp [DEFAULT_RETRY_COUNT] at *
  all_goals omega

/-- TimesketchApi.fetch_resource_data (client.py lines 369-472): the retry
loop started at attempt 1. -/
def fetch_resource_data (session : Nat → HttpResult) (resource_uri : String) :
    List Event × Except PyErr JVal :=
  fetchFrom session resource_uri 1

/-- The success condition of create_sketch / create_searchindex (client.py
lines 512-521): the "objects" value of the decoded response is a truthy list
whose first element is a dict containing an "id" key; the extracted id. -/
def extractObjectsId (response_dict : JVal) : Option JVal :=
  match response_dict.getD "objects" .null with
  | .arr (first :: _) =>
      match first with
      | .dict fs => lookupField fs "id"
      | _ => none
  | _ => none

/-- Modelled from the spec: TimesketchApi.get_sketch (client.py lines
664-673) returns sketch.Sketch(sketch_id, api=self); the sketch module is
not under src/.  Per the create-with-id derived operation, on
success the client "fetches and returns the full resource by that id (a
second network round trip)", so the wrapper is modelled as one fetch of
the resource by id against the resource table of the server. -/
def get_sketch (getResource : JVal → JVal) (sketch_id : JVal) :
    List Event × JVal :=
  ([Event.fetchResource sketch_id], getResource sketch_id)

/-- Modelled from the spec: TimesketchApi.get_sigmarule (client.py lines
1012-1025) builds a SigmaRule wrapper and calls from_rule_uuid; the sigma
module is not under src/.  Per the create-with-id derived
operation it is modelled as one fetch of the full rule by its uuid. -/
def get_sigmarule (getResource : JVal → JVal) (rule_uuid : JVal) :
    List Event × JVal :=
  ([Event.fetchResource rule_uuid], getResource rule_uuid)

/-- The retry loop of TimesketchApi.create_sketch (client.py lines
508-597), at 0-indexed loop counter `attempt`.  The POST stands OUTSIDE
the try block (line 509), so a connection error raised by the POST
propagates immediately and is never retried.  Inside the try,
get_response_json failures (non-20x RuntimeError, decode ValueError) and a
response without a usable objects[0].id are recorded and retried: when
attempt < DEFAULT_RETRY_COUNT - 1 the loop sleeps 0.5 * 2^attempt seconds
and tries again, otherwise it raises RuntimeError.  On success it returns
get_sketch(objects[0]["id"]). -/
def createSketchGo (posts : Nat → HttpResult) (getResource : JVal → JVal)
    (attempt : Nat) : List Event × Except PyErr JVal :=
  let issued : List Event := [Event.httpPost sketchesUri]
  match posts attempt with
  | .connFail => (issued, .error .connectionError)
  | .resp status body =>
      let success : Option (List Event × Except PyErr JVal) :=
        match get_response_json status body with
        | .ok response_dict =>
            match extractObjectsId response_dict with
            | some sketch_id =>
                some (issued ++ (get_sketch getResource sketch_id).1,
                  .ok (get_sketch getResource sketch_id).2)
            | none => none
        | .error _ => none
      match success with
      | some r => r
      | none =>
          if h : attempt < DEFAULT_RETRY_COUNT - 1 then
            let rest := createSketchGo posts getResource (attempt + 1)
            (issued ++ [Event.sleep (500 * 2 ^ attempt)] ++ rest.1, rest.2)
          else
            (issued, .error .runtimeError)
termination_by DEFAULT_RETRY_COUNT - attempt
decreasing_by
  simp [DEFAULT_RETRY_COUNT] at *
  omega

/-- TimesketchApi.create_sketch (client.py lines 474-597): an empty name
raises ValueError before any network call (line 502); otherwise the retry
loop runs from attempt 0.  The description argument only affects the POST
body, never the control flow. -/
def create_sketch (posts : Nat → HttpResult) (getResource : JVal → JVal)
    (name : String) (description : Option String) :
    List Event × Except PyErr JVal :=
  if name = "" then ([], .error .valueError)
  else createSketchGo posts getResource 0

/-- The retry loop of TimesketchApi.create_searchindex (client.py lines
804-891), at 0-indexed loop counter `attempt`.  Unlike create_sketch, the
POST stands INSIDE the try block (line 806), so a connection error is
caught by the RequestException handler and retried like the other
failures.  At exhaustion, the code at lines 881-884 evaluates the broken
f-string f"\x7b0:s\x7d Response: \x7b1!s\x7d", which formats the int 0
with the "s" format code and therefore raises ValueError before the
RuntimeError on line 885 is reached. -/
def createSearchindexGo (posts : Nat → HttpResult) (getResource : JVal → JVal)
    (attempt : Nat) : List Event × Except PyErr JVal :=
  let issued : List Event := [Event.httpPost searchindicesUri]
  let failed : List Event × Except PyErr JVal :=
    if h : attempt < DEFAULT_RETRY_COUNT - 1 then
      let rest := createSearchindexGo posts getResource (attempt + 1)
      (issued ++ [Event.sleep (500 * 2 ^ attempt)] ++ rest.1, rest.2)
    else
      (issued, .error .valueError)
  match posts attempt with
  | .connFail => failed
  | .resp status body =>
      match get_response_json status body with
      | .ok response_dict =>
          match extractObjectsId response_dict with
          | some searchindex_id =>
              (issued ++ [Event.fetchResource searchindex_id],
                .ok (getResource searchindex_id))
          | none => failed
      | .error _ => failed
termination_by DEFAULT_RETRY_COUNT - attempt
decreasing_by
  all_goals simp [DEFAULT_RETRY_COUNT] at *
  all_goals omega

/-- TimesketchApi.create_searchindex (client.py lines 775-891): the retry
loop from attempt 0; there is no pre-network input validation. -/
def create_searchindex (posts : Nat → HttpResult) (getResource : JVal → JVal) :
    List Event × Except PyErr JVal :=
  createSearchindexGo posts getResource 0

/-- Python objects[0][key]: subscript the objects value at index 0
(pySubscript0: IndexError on an empty list, KeyError on a dict, and so
on), then subscript the result with the string key (KeyError when a dict
lacks the key, TypeError when the element is not a dict). -/
def firstElemField (objects : JVal) (key : String) : Except PyErr JVal :=
  match pySubscript0 objects with
  | .error e => .error e
  | .ok first => dictField first key

/-- The retry loop of TimesketchApi.create_user (client.py lines 599-629),
at retry_count value `retry_count`.  There is NO try/except: a connection
error from the POST and any get_response_json failure (non-20x
RuntimeError, decode ValueError) propagate immediately.  Only a falsy
"objects" value is retried: retry_count is incremented and when it reaches
DEFAULT_RETRY_COUNT the loop raises RuntimeError.  On success the function
returns user.User(user_id=objects[0]["id"], api=self); the user module is
not under src/ and the spec treats the wrapper construction as an external
collaborator, so the outcome is the extracted user id. -/
def createUserGo (posts : Nat → HttpResult) (retry_count : Nat) :
    List Event × Except PyErr JVal :=
  let issued : List Event := [Event.httpPost usersUri]
  match posts retry_count with
  | .connFail => (issued, .error .connectionError)
  | .resp status body =>
      match get_response_json status body with
      | .error e => (issued, .error e)
      | .ok response_dict =>
          let objects := response_dict.getD "objects" .null
          if objects.truthy then
            match firstElemField objects "id" with
            | .ok uid => (issued, .ok uid)
            | .error e => (issued, .error e)
          else
            if h : retry_count + 1 < DEFAULT_RETRY_COUNT then
              let rest := createUserGo posts (retry_count + 1)
              (issued ++ rest.1, rest.2)
            else
              (issued, .error .runtimeError)
termination_by DEFAULT_RETRY_COUNT - retry_count
decreasing_by
  simp [DEFAULT_RETRY_COUNT] at *
  omega

/-- TimesketchApi.create_user (client.py lines 599-629): the loop from
retry_count 0.  Note there is no backoff sleep in this loop. -/
def create_user (posts : Nat → HttpResult) : List Event × Except PyErr JVal :=
  createUserGo posts 0

/-- The retry loop of TimesketchApi.create_sigmarule (client.py lines
975-1010), at retry_count value `retry_count`.  Same shape as create_user
(no try/except, only a falsy "objects" value is retried); on success the
code extracts objects[0]["rule_uuid"] and returns
get_sigmarule(rule_uuid).  There is no empty-rule-text pre-check: the POST
is issued whatever the rule text. -/
def createSigmaruleGo (posts : Nat → HttpResult) (getResource : JVal → JVal)
    (retry_count : Nat) : List Event × Except PyErr JVal :=
  let issued : List Event := [Event.httpPost sigmarulesUri]
  match posts retry_count with
  | .connFail => (issued, .error .connectionError)
  | .resp status body =>
      match get_response_json status body with
      | .error e => (issued, .error e)
      | .ok response_dict =>
          let objects := response_dict.getD "objects" .null
          if objects.truthy then
            match firstElemField objects "rule_uuid" with
            | .ok rule_uuid =>
                (issued ++ (get_sigmarule getResource rule_uuid).1,
                  .ok (get_sigmarule getResource rule_uuid).2)
            | .error e => (issued, .error e)
          else
            if h : retry_count + 1 < DEFAULT_RETRY_COUNT then
              let rest := createSigmaruleGo posts getResource (retry_count + 1)
              (issued ++ rest.1, rest.2)
            else
              (issued, .error .runtimeError)
termination_by DEFAULT_RETRY_COUNT - retry_count
decreasing_by
  simp [DEFAULT_RETRY_COUNT] at *
  omega

/-- TimesketchApi.create_sigmarule (client.py lines 975-1010): the loop
from retry_count 0, with the rule text only affecting the POST body. -/
def create_sigmarule (posts : Nat → HttpResult) (getResource : JVal → JVal)
    (rule_yaml : String) : List Event × Except PyErr JVal :=
  createSigmaruleGo posts getResource 0

/-- TimesketchApi.parse_sigmarule_by_text (client.py lines 1027-1051): an
empty rule text raises ValueError before anything else; otherwise the rule
is parsed locally by the sigma module (not under src/, no network
involved), modelled as a plain success. -/
def parse_sigmarule_by_text (rule_text : String) :
    List Event × Except PyErr Unit :=
  if rule_text = "" then ([], .error .valueError)
  else ([], .ok ())

/-- TimesketchApi.list_users (client.py lines 631-642): fetches "users/",
then iterates response.get("objects", [])[0] -- indexing the first element
without any guard, so an absent or empty "objects" list raises IndexError
when the generator is consumed.  Both the [0] subscript and the iteration
follow Python semantics (pySubscript0 and pyIterate); each iterated
element is subscripted with "id", and the yielded User wrappers are
modelled by their user ids. -/
def list_users (session : Nat → HttpResult) :
    List Event × Except PyErr (List JVal) :=
  let fetched := fetch_resource_data session usersUri
  match fetched.2 with
  | .error e => (fetched.1, .error e)
  | .ok response =>
      match pySubscript0 (response.getD "objects" (.arr [])) with
      | .error e => (fetched.1, .error e)
      | .ok first =>
          match pyIterate first with
          | .error e => (fetched.1, .error e)
          | .ok user_dicts =>
              (fetched.1,
                user_dicts.mapM (fun user_dict => dictField user_dict "id"))

/-- TimesketchApi.list_searchindices (client.py lines 912-930): fetches
"searchindices/"; when response.get("objects") is absent or falsy the
generator yields exactly the single element None and stops; otherwise it
iterates objects[0], yielding one SearchIndex wrapper (modelled by its id
and name) per entry. -/
def list_searchindices (session : Nat → HttpResult) :
    List Event × Except PyErr (List (Option (JVal × JVal))) :=
  let fetched := fetch_resource_data session searchindicesUri
  match fetched.2 with
  | .error e => (fetched.1, .error e)
  | .ok response =>
      let response_objects := response.getD "objects" .null
      if response_objects.truthy then
        match pySubscript0 response_objects with
        | .error e => (fetched.1, .error e)
        | .ok first =>
            match pyIterate first with
            | .error e => (fetched.1, .error e)
            | .ok index_dicts =>
                (fetched.1, index_dicts.mapM (fun index_dict => do
                  let index_id ← dictField index_dict "id"
                  let index_name ← dictField index_dict "name"
                  pure (some (index_id, index_name))))
      else
        (fetched.1, .ok [none])

/-- The next-page value used by list_sketches (client.py lines 750-754):
page = response.get("meta", \x7b\x7d).get("next_page"); the loop stops
when it is falsy (absent, null, or 0) and continues with it otherwise.
The wire contract makes next_page an int or null; other shapes are outside
the modelled domain and treated as stopping. -/
def metaNextPage (response : JVal) : Option Nat :=
  match (response.getD "meta" (.dict [])).get? "next_page" with
  | some (.nat n) => if n = 0 then none else some n
  | _ => none

/-- The "objects" list of a page response iterated by list_sketches
(client.py line 756), with the [] default when the key is absent. -/
def objectsList (response : JVal) : List JVal :=
  match response.getD "objects" (.arr []) with
  | .arr xs => xs
  | _ => []

/-- One yielded Sketch wrapper of list_sketches (client.py lines 756-762),
modelled by the "id" and "name" values of the sketch dict; missing keys
raise KeyError exactly as sketch_dict["id"] / sketch_dict["name"] do. -/
def sketchEntry (sketch_dict : JVal) : Except PyErr (JVal × JVal) := do
  let sketch_id ← dictField sketch_dict "id"
  let sketch_name ← dictField sketch_dict "name"
  pure (sketch_id, sketch_name)

/-- The pagination loop of TimesketchApi.list_sketches (client.py lines
744-762) over a fixed server dataset ds mapping each page number to the
decoded response that fetch_resource_data returns for that page.  Each
iteration issues the page GET, computes the next page from meta.next_page,
yields one Sketch per entry of the objects list of the page, and stops when the
next page is falsy.  The fuel argument only bounds the recursion; all
theorems assume a dataset whose next-page chain terminates within the
fuel, in which case the result does not depend on the fuel. -/
def listSketchesGo (ds : Nat → JVal) (page : Nat) (fuel : Nat) :
    List Event × Except PyErr (List (JVal × JVal)) :=
  match fuel with
  | 0 => ([], .ok [])
  | fuel + 1 =>
      let response := ds page
      let issued : Event := Event.httpGetPage sketchesUri page
      match (objectsList response).mapM sketchEntry with
      | .error e => ([issued], .error e)
      | .ok items =>
          match metaNextPage response with
          | none => ([issued], .ok items)
          | some next =>
              let rest := listSketchesGo ds next fuel
              (issued :: rest.1,
                match rest.2 with
                | .ok more => .ok (items ++ more)
                | .error e => .error e)

/-- TimesketchApi.list_sketches (client.py lines 721-762): pagination
always starts at page 1. -/
def list_sketches (ds : Nat → JVal) (fuel : Nat) :
    List Event × Except PyErr (List (JVal × JVal)) :=
  listSketchesGo ds 1 fuel

/-- The chain of pages visited by the pagination loop, starting at the
given page, of length at most n: each page is followed by the page its
meta.next_page designates, until that is falsy. -/
def pageChain (ds : Nat → JVal) (page : Nat) : Nat → List Nat
  | 0 => []
  | n + 1 =>
      page ::
        (match metaNextPage (ds page) with
          | none => []
          | some next => pageChain ds next n)

/-- Decidable statement that the next-page chain starting at the given
page reaches a falsy next_page within n pages. -/
def chainStops (ds : Nat → JVal) (page : Nat) : Nat → Bool
  | 0 => false
  | n + 1 =>
      match metaNextPage (ds page) with
      | none => true
      | some next => chainStops ds next n

/-- Classification used by fetch_resource_data: an attempt outcome is a
transient failure when the transport fails, get_response_json raises
(non-20x status or undecodable body), or the decoded payload is falsy. -/
def attemptFails : HttpResult → Bool
  | .connFail => true
  | .resp status body =>
      match get_response_json status body with
      | .error _ => true
      | .ok j => !j.truthy

/-- The value a successful fetch_resource_data attempt returns: the
decoded payload when the status is 20x, the body decodes and is truthy. -/
def fetchSuccess : HttpResult → Option JVal
  | .connFail => none
  | .resp status body =>
      match get_response_json status body with
      | .error _ => none
      | .ok j => if j.truthy then some j else none

/-- A create_sketch attempt outcome its loop handles and retries: any
get_response_json failure or a response without a usable objects[0].id --
but NOT a transport connection failure, which the loop does not catch. -/
def sketchAttemptRetried : HttpResult → Bool
  | .connFail => false
  | .resp status body =>
      match get_response_json status body with
      | .error _ => true
      | .ok d => (extractObjectsId d).isNone

/-- A create_searchindex attempt outcome its loop handles and retries:
transport failure, any get_response_json failure, or a response without a
usable objects[0].id. -/
def searchindexAttemptRetried : HttpResult → Bool
  | .connFail => true
  | .resp status body =>
      match get_response_json status body with
      | .error _ => true
      | .ok d => (extractObjectsId d).isNone

/-- A create_user / create_sigmarule attempt outcome their loops retry: a
20x response that decodes to a payload whose "objects" value is falsy. -/
def userAttemptRetried : HttpResult → Bool
  | .connFail => false
  | .resp status body =>
      match get_response_json status body with
      | .error _ => false
      | .ok d => !(d.getD "objects" .null).truthy

/-- A 20x response whose decoded payload has a falsy "objects" value (for
example an empty objects list): the validation-rejection failure kind. -/
def emptyObjectsResp : HttpResult → Bool
  | .connFail => false
  | .resp status body =>
      match get_response_json status body with
      | .error _ => false
      | .ok d => !(d.getD "objects" .null).truthy

/-- The id a successful create_sketch / create_searchindex attempt
extracts: the attempt decodes and carries a usable objects[0].id. -/
def sketchSuccessId : HttpResult → Option JVal
  | .connFail => none
  | .resp status body =>
      match get_response_json status body with
      | .error _ => none
      | .ok d => extractObjectsId d

/-- The trace of n consecutive failed fetch_resource_data attempts
starting at 1-indexed attempt number `attempt`: each contributes its
backoff sleep (none for attempt 1) followed by its GET. -/
def fetchFailBlocks (resource_uri : String) (attempt : Nat) : Nat → List Event
  | 0 => []
  | n + 1 =>
      (fetchSleep attempt ++ [Event.httpGet resource_uri]) ++
        fetchFailBlocks resource_uri (attempt + 1) n

/-- The trace of n consecutive failed-and-retried attempts of the
create_sketch / create_searchindex loop starting at 0-indexed attempt
`base`: each contributes its POST followed by the backoff sleep
0.5 * 2^attempt seconds. -/
def createFailBlocks (uri : String) (base : Nat) : Nat → List Event
  | 0 => []
  | n + 1 =>
      [Event.httpPost uri, Event.sleep (500 * 2 ^ base)] ++
        createFailBlocks uri (base + 1) n

/-- The unified backoff function proposed by the spec: delay(a) =
0.5 * 2^(a-1) seconds for a >= 1 and no delay for a = 0, in
milliseconds. -/
def unifiedDelayMs (a : Nat) : Nat := if a = 0 then 0 else 500 * 2 ^ (a - 1)

/-- The Sketch wrappers one page response yields, one per entry of its
objects list. -/
def pageItems (response : JVal) : Except PyErr (List (JVal × JVal)) :=
  (objectsList response).mapM sketchEntry

/-- The concatenated yields of the pagination loop along a list of pages,
with the first KeyError aborting the listing. -/
def chainYield (ds : Nat → JVal) : List Nat → Except PyErr (List (JVal × JVal))
  | [] => .ok []
  | p :: rest =>
      match pageItems (ds p) with
      | .error e => .error e
      | .ok items =>
          match chainYield ds rest with
          | .error e => .error e
          | .ok more => .ok (items ++ more)

/-- Whether an Except value is a success. -/
def isOkE {ε α : Type} : Except ε α → Bool
  | .ok _ => true
  | .error _ => false

theorem fetchFrom_fail_step (session : Nat → HttpResult) (resource_uri : String)
    (attempt : Nat) (h5 : attempt < DEFAULT_RETRY_COUNT)
    (hf : attemptFails (session (attempt - 1)) = true) :
    fetchFrom session resource_uri attempt =
      ((fetchSleep attempt ++ [Event.httpGet resource_uri]) ++
          (fetchFrom session resource_uri (attempt + 1)).1,
        (fetchFrom session resource_uri (attempt + 1)).2) := by
  have hn : ¬ (DEFAULT_RETRY_COUNT ≤ attempt) := by omega
  rw [fetchFrom]
  cases hres : session (attempt - 1) with
  | connFail => simp [hn]
  | resp status body =>
      rw [hres] at hf
      rw [attemptFails] at hf
      cases hgr : get_response_json status body with
      | error e =>
          rw [hgr] at hf
          simp [hgr, hn]
      | ok j =>
          rw [hgr] at hf
          simp at hf
          simp [hgr, hf, hn]

theorem fetchFrom_success (session : Nat → HttpResult) (resource_uri : String)
    (attempt : Nat) (j : JVal)
    (hs : fetchSuccess (session (attempt - 1)) = some j) :
    fetchFrom session resource_uri attempt =
      (fetchSleep attempt ++ [Event.httpGet resource_uri], .ok j) := by
  rw [fetchFrom]
  cases hres : session (attempt - 1) with
  | connFail => rw [hres] at hs; simp [fetchSuccess] at hs
  | resp status body =>
      rw [hres] at hs
      rw [fetchSuccess] at hs
      cases hgr : get_response_json status body with
      | error e => rw [hgr] at hs; simp at hs
      | ok r =>
          rw [hgr] at hs
          simp at hs
          obtain ⟨ht, hj⟩ := hs
          subst hj
          simp [hgr, ht]

theorem fetchFrom_fail_last (session : Nat → HttpResult) (resource_uri : String)
    (attempt : Nat) (h5 : DEFAULT_RETRY_COUNT ≤ attempt)
    (hf : attemptFails (session (attempt - 1)) = true) :
    ∃ e, fetchFrom session resource_uri attempt =
      (fetchSleep attempt ++ [Event.httpGet resource_uri], .error e) := by
  rw [fetchFrom]
  cases hres : session (attempt - 1) with
  | connFail => exact ⟨.connectionError, by simp [h5]⟩
  | resp status body =>
      rw [hres] at hf
      rw [attemptFails] at hf
      cases hgr : get_response_json status body with
      | error e => exact ⟨e, by simp [hgr, h5]⟩
      | ok j =>
          rw [hgr] at hf
          simp at hf
          exact ⟨.runtimeError, by simp [hgr, hf, h5]⟩

theorem fetchFrom_fail_chain (session : Nat → HttpResult) (resource_uri : String) :
    ∀ n attempt, 1 ≤ attempt → attempt + n ≤ DEFAULT_RETRY_COUNT →
      (∀ i, i < n → attemptFails (session (attempt - 1 + i)) = true) →
      fetchFrom session resource_uri attempt =
        (fetchFailBlocks resource_uri attempt n ++
            (fetchFrom session resource_uri (attempt + n)).1,
          (fetchFrom session resource_uri (attempt + n)).2) := by
  intro n
  induction n with
  | zero => intro attempt h1 h2 h3; simp [fetchFailBlocks]
  | succ n ih =>
      intro attempt h1 h2 h3
      have h0 : attemptFails (session (attempt - 1)) = true := by
        have := h3 0 (by omega)
        simpa using this
      have hstep := fetchFrom_fail_step session resource_uri attempt (by
        simp [DEFAULT_RETRY_COUNT] at h2 ⊢; omega) h0
      have hrec := ih (attempt + 1) (by omega) (by omega) (by
        intro i hi
        have := h3 (i + 1) (by omega)
        have harith : attempt - 1 + (i + 1) = attempt + 1 - 1 + i := by omega
        rwa [harith] at this)
      have harith2 : attempt + 1 + n = attempt + (n + 1) := by omega
      rw [harith2] at hrec
      rw [hstep, hrec]
      simp [fetchFailBlocks, List.append_assoc]

theorem createSketchGo_conn (posts : Nat → HttpResult) (getResource : JVal → JVal)
    (attempt : Nat) (hc : posts attempt = .connFail) :
    createSketchGo posts getResource attempt =
      ([Event.httpPost sketchesUri], .error .connectionError) := by
  rw [createSketchGo]
  simp [hc]

theorem createSketchGo_success (posts : Nat → HttpResult) (getResource : JVal → JVal)
    (attempt : Nat) (sid : JVal) (hs : sketchSuccessId (posts attempt) = some sid) :
    createSketchGo posts getResource attempt =
      ([Event.httpPost sketchesUri, Event.fetchResource sid],
        .ok (getResource sid)) := by
  rw [createSketchGo]
  cases hres : posts attempt with
  | connFail => rw [hres] at hs; simp [sketchSuccessId] at hs
  | resp status body =>
      rw [hres] at hs
      rw [sketchSuccessId] at hs
      cases hgr : get_response_json status body with
      | error e => rw [hgr] at hs; simp at hs
      | ok d =>
          rw [hgr] at hs
          simp at hs
          simp [hgr, hs, get_sketch]

theorem createSketchGo_fail_step (posts : Nat → HttpResult) (getResource : JVal → JVal)
    (attempt : Nat) (h4 : attempt < DEFAULT_RETRY_COUNT - 1)
    (hf : sketchAttemptRetried (posts attempt) = true) :
    createSketchGo posts getResource attempt =
      ([Event.httpPost sketchesUri, Event.sleep (500 * 2 ^ attempt)] ++
          (createSketchGo posts getResource (attempt + 1)).1,
        (createSketchGo posts getResource (attempt + 1)).2) := by
  rw [createSketchGo]
  cases hres : posts attempt with
  | connFail => rw [hres] at hf; simp [sketchAttemptRetried] at hf
  | resp status body =>
      rw [hres] at hf
      rw [sketchAttemptRetried] at hf
      cases hgr : get_response_json status body with
      | error e => simp [hgr, h4]
      | ok d =>
          rw [hgr] at hf
          simp at hf
          simp [hgr, hf, h4]

theorem createSketchGo_fail_last (posts : Nat → HttpResult) (getResource : JVal → JVal)
    (attempt : Nat) (h4 : ¬ (attempt < DEFAULT_RETRY_COUNT - 1))
    (hf : sketchAttemptRetried (posts attempt) = true) :
    createSketchGo posts getResource attempt =
      ([Event.httpPost sketchesUri], .error .runtimeError) := by
  rw [createSketchGo]
  cases hres : posts attempt with
  | connFail => rw [hres] at hf; simp [sketchAttemptRetried] at hf
  | resp status body =>
      rw [hres] at hf
      rw [sketchAttemptRetried] at hf
      cases hgr : get_response_json status body with
      | error e => simp [hgr, h4]
      | ok d =>
          rw [hgr] at hf
          simp at hf
          simp [hgr, hf, h4]

theorem createSketchGo_fail_chain (posts : Nat → HttpResult) (getResource : JVal → JVal) :
    ∀ n attempt, attempt + n ≤ DEFAULT_RETRY_COUNT - 1 →
      (∀ i, i < n → sketchAttemptRetried (posts (attempt + i)) = true) →
      createSketchGo posts getResource attempt =
        (createFailBlocks sketchesUri attempt n ++
            (createSketchGo posts getResource (attempt + n)).1,
          (createSketchGo posts getResource (attempt + n)).2) := by
  intro n
  induction n with
  | zero => intro attempt h2 h3; simp [createFailBlocks]
  | succ n ih =>
      intro attempt h2 h3
      have h0 : sketchAttemptRetried (posts attempt) = true := by
        have := h3 0 (by omega)
        simpa using this
      have hstep := createSketchGo_fail_step posts getResource attempt (by
        simp [DEFAULT_RETRY_COUNT] at h2 ⊢; omega) h0
      have hrec := ih (attempt + 1) (by omega) (by
        intro i hi
        have := h3 (i + 1) (by omega)
        have harith : attempt + (i + 1) = attempt + 1 + i := by omega
        rwa [harith] at this)
      have harith2 : attempt + 1 + n = attempt + (n + 1) := by omega
      rw [harith2] at hrec
      rw [hstep, hrec]
      simp [createFailBlocks, List.append_assoc]

theorem createSearchindexGo_success (posts : Nat → HttpResult) (getResource : JVal → JVal)
    (attempt : Nat) (sid : JVal) (hs : sketchSuccessId (posts attempt) = some sid) :
    createSearchindexGo posts getResource attempt =
      ([Event.httpPost searchindicesUri, Event.fetchResource sid],
        .ok (getResource sid)) := by
  rw [createSearchindexGo]
  cases hres : posts attempt with
  | connFail => rw [hres] at hs; simp [sketchSuccessId] at hs
  | resp status body =>
      rw [hres] at hs
      rw [sketchSuccessId] at hs
      cases hgr : get_response_json status body with
      | error e => rw [hgr] at hs; simp at hs
      | ok d =>
          rw [hgr] at hs
          simp at hs
          simp [hgr, hs]

theorem createSearchindexGo_fail_step (posts : Nat → HttpResult) (getResource : JVal → JVal)
    (attempt : Nat) (h4 : attempt < DEFAULT_RETRY_COUNT - 1)
    (hf : searchindexAttemptRetried (posts attempt) = true) :
    createSearchindexGo posts getResource attempt =
      ([Event.httpPost searchindicesUri, Event.sleep (500 * 2 ^ attempt)] ++
          (createSearchindexGo posts getResource (attempt + 1)).1,
        (createSearchindexGo posts getResource (attempt + 1)).2) := by
  rw [createSearchindexGo]
  cases hres : posts attempt with
  | connFail => simp [h4]
  | resp status body =>
      rw [hres] at hf
      rw [searchindexAttemptRetried] at hf
      cases hgr : get_response_json status body with
      | error e => simp [hgr, h4]
      | ok d =>
          rw [hgr] at hf
          simp at hf
          simp [hgr, hf, h4]

theorem createSearchindexGo_fail_last (posts : Nat → HttpResult) (getResource : JVal → JVal)
    (attempt : Nat) (h4 : ¬ (attempt < DEFAULT_RETRY_COUNT - 1))
    (hf : searchindexAttemptRetried (posts attempt) = true) :
    createSearchindexGo posts getResource attempt =
      ([Event.httpPost searchindicesUri], .error .valueError) := by
  rw [createSearchindexGo]
  cases hres : posts attempt with
  | connFail => simp [h4]
  | resp status body =>
      rw [hres] at hf
      rw [searchindexAttemptRetried] at hf
      cases hgr : get_response_json status body with
      | error e => simp [hgr, h4]
      | ok d =>
          rw [hgr] at hf
          simp at hf
          simp [hgr, hf, h4]

theorem createSearchindexGo_fail_chain (posts : Nat → HttpResult) (getResource : JVal → JVal) :
    ∀ n attempt, attempt + n ≤ DEFAULT_RETRY_COUNT - 1 →
      (∀ i, i < n → searchindexAttemptRetried (posts (attempt + i)) = true) →
      createSearchindexGo posts getResource attempt =
        (createFailBlocks searchindicesUri attempt n ++
            (createSearchindexGo posts getResource (attempt + n)).1,
          (createSearchindexGo posts getResource (attempt + n)).2) := by
  intro n
  induction n with
  | zero => intro attempt h2 h3; simp [createFailBlocks]
  | succ n ih =>
      intro attempt h2 h3
      have h0 : searchindexAttemptRetried (posts attempt) = true := by
        have := h3 0 (by omega)
        simpa using this
      have hstep := createSearchindexGo_fail_step posts getResource attempt (by
        simp [DEFAULT_RETRY_COUNT] at h2 ⊢; omega) h0
      have hrec := ih (attempt + 1) (by omega) (by
        intro i hi
        have := h3 (i + 1) (by omega)
        have harith : attempt + (i + 1) = attempt + 1 + i := by omega
        rwa [harith] at this)
      have harith2 : attempt + 1 + n = attempt + (n + 1) := by omega
      rw [harith2] at hrec
      rw [hstep, hrec]
      simp [createFailBlocks, List.append_assoc]

theorem createUserGo_conn (posts : Nat → HttpResult) (retry_count : Nat)
    (hc : posts retry_count = .connFail) :
    createUserGo posts retry_count =
      ([Event.httpPost usersUri], .error .connectionError) := by
  rw [createUserGo]
  simp [hc]

theorem createUserGo_propagates (posts : Nat → HttpResult) (retry_count : Nat)
    (status : Nat) (body : Option JVal) (e : PyErr)
    (hres : posts retry_count = .resp status body)
    (hgr : get_response_json status body = .error e) :
    createUserGo posts retry_count = ([Event.httpPost usersUri], .error e) := by
  rw [createUserGo]
  simp [hres, hgr]

theorem createUserGo_fail_step (posts : Nat → HttpResult) (retry_count : Nat)
    (h4 : retry_count + 1 < DEFAULT_RETRY_COUNT)
    (hf : userAttemptRetried (posts retry_count) = true) :
    createUserGo posts retry_count =
      (Event.httpPost usersUri :: (createUserGo posts (retry_count + 1)).1,
        (createUserGo posts (retry_count + 1)).2) := by
  rw [createUserGo]
  cases hres : posts retry_count with
  | connFail => rw [hres] at hf; simp [userAttemptRetried] at hf
  | resp status body =>
      rw [hres] at hf
      rw [userAttemptRetried] at hf
      cases hgr : get_response_json status body with
      | error e => rw [hgr] at hf; simp at hf
      | ok d =>
          rw [hgr] at hf
          simp at hf
          simp [hgr, hf, h4]

theorem createUserGo_fail_last (posts : Nat → HttpResult) (retry_count : Nat)
    (h4 : ¬ (retry_count + 1 < DEFAULT_RETRY_COUNT))
    (hf : userAttemptRetried (posts retry_count) = true) :
    createUserGo posts retry_count =
      ([Event.httpPost usersUri], .error .runtimeError) := by
  rw [createUserGo]
  cases hres : posts retry_count with
  | connFail => rw [hres] at hf; simp [userAttemptRetried] at hf
  | resp status body =>
      rw [hres] at hf
      rw [userAttemptRetried] at hf
      cases hgr : get_response_json status body with
      | error e => rw [hgr] at hf; simp at hf
      | ok d =>
          rw [hgr] at hf
          simp at hf
          simp [hgr, hf, h4]

theorem createUserGo_fail_chain (posts : Nat → HttpResult) :
    ∀ n retry_count, retry_count + n ≤ DEFAULT_RETRY_COUNT - 1 →
      (∀ i, i < n → userAttemptRetried (posts (retry_count + i)) = true) →
      createUserGo posts retry_count =
        (List.replicate n (Event.httpPost usersUri) ++
            (createUserGo posts (retry_count + n)).1,
          (createUserGo posts (retry_count + n)).2) := by
  intro n
  induction n with
  | zero => intro rc h2 h3; simp
  | succ n ih =>
      intro rc h2 h3
      have h0 : userAttemptRetried (posts rc) = true := by
        have := h3 0 (by omega)
        simpa using this
      have hstep := createUserGo_fail_step posts rc (by
        simp [DEFAULT_RETRY_COUNT] at h2 ⊢; omega) h0
      have hrec := ih (rc + 1) (by omega) (by
        intro i hi
        have := h3 (i + 1) (by omega)
        have harith : rc + (i + 1) = rc + 1 + i := by omega
        rwa [harith] at this)
      have harith2 : rc + 1 + n = rc + (n + 1) := by omega
      rw [harith2] at hrec
      rw [hstep, hrec]
      simp [List.replicate_succ]

theorem createSigmaruleGo_conn (posts : Nat → HttpResult) (getResource : JVal → JVal)
    (retry_count : Nat) (hc : posts retry_count = .connFail) :
    createSigmaruleGo posts getResource retry_count =
      ([Event.httpPost sigmarulesUri], .error .connectionError) := by
  rw [createSigmaruleGo]
  simp [hc]

theorem createSigmaruleGo_propagates (posts : Nat → HttpResult)
    (getResource : JVal → JVal) (retry_count : Nat)
    (status : Nat) (body : Option JVal) (e : PyErr)
    (hres : posts retry_count = .resp status body)
    (hgr : get_response_json status body = .error e) :
    createSigmaruleGo posts getResource retry_count =
      ([Event.httpPost sigmarulesUri], .error e) := by
  rw [createSigmaruleGo]
  simp [hres, hgr]

theorem createSigmaruleGo_fail_step (posts : Nat → HttpResult)
    (getResource : JVal → JVal) (retry_count : Nat)
    (h4 : retry_count + 1 < DEFAULT_RETRY_COUNT)
    (hf : userAttemptRetried (posts retry_count) = true) :
    createSigmaruleGo posts getResource retry_count =
      (Event.httpPost sigmarulesUri ::
          (createSigmaruleGo posts getResource (retry_count + 1)).1,
        (createSigmaruleGo posts getResource (retry_count + 1)).2) := by
  rw [createSigmaruleGo]
  cases hres : posts retry_count with
  | connFail => rw [hres] at hf; simp [userAttemptRetried] at hf
  | resp status body =>
      rw [hres] at hf
      rw [userAttemptRetried] at hf
      cases hgr : get_response_json status body with
      | error e => rw [hgr] at hf; simp at hf
      | ok d =>
          rw [hgr] at hf
          simp at hf
          simp [hgr, hf, h4]

theorem createSigmaruleGo_fail_last (posts : Nat → HttpResult)
    (getResource : JVal → JVal) (retry_count : Nat)
    (h4 : ¬ (retry_count + 1 < DEFAULT_RETRY_COUNT))
    (hf : userAttemptRetried (posts retry_count) = true) :
    createSigmaruleGo posts getResource retry_count =
      ([Event.httpPost sigmarulesUri], .error .runtimeError) := by
  rw [createSigmaruleGo]
  cases hres : posts retry_count with
  | connFail => rw [hres] at hf; simp [userAttemptRetried] at hf
  | resp status body =>
      rw [hres] at hf
      rw [userAttemptRetried] at hf
      cases hgr : get_response_json status body with
      | error e => rw [hgr] at hf; simp at hf
      | ok d =>
          rw [hgr] at hf
          simp at hf
          simp [hgr, hf, h4]

theorem createSigmaruleGo_fail_chain (posts : Nat → HttpResult)
    (getResource : JVal → JVal) :
    ∀ n retry_count, retry_count + n ≤ DEFAULT_RETRY_COUNT - 1 →
      (∀ i, i < n → userAttemptRetried (posts (retry_count + i)) = true) →
      createSigmaruleGo posts getResource retry_count =
        (List.replicate n (Event.httpPost sigmarulesUri) ++
            (createSigmaruleGo posts getResource (retry_count + n)).1,
          (createSigmaruleGo posts getResource (retry_count + n)).2) := by
  intro n
  induction n with
  | zero => intro rc h2 h3; simp
  | succ n ih =>
      intro rc h2 h3
      have h0 : userAttemptRetried (posts rc) = true := by
        have := h3 0 (by omega)
        simpa using this
      have hstep := createSigmaruleGo_fail_step posts getResource rc (by
        simp [DEFAULT_RETRY_COUNT] at h2 ⊢; omega) h0
      have hrec := ih (rc + 1) (by omega) (by
        intro i hi
        have := h3 (i + 1) (by omega)
        have harith : rc + (i + 1) = rc + 1 + i := by omega
        rwa [harith] at this)
      have harith2 : rc + 1 + n = rc + (n + 1) := by omega
      rw [harith2] at hrec
      rw [hstep, hrec]
      simp [List.replicate_succ]

theorem fetch_all_fail (session : Nat → HttpResult) (resource_uri : String)
    (hall : ∀ i, i < DEFAULT_RETRY_COUNT → attemptFails (session i) = true) :
    ∃ e, fetch_resource_data session resource_uri =
      ([Event.httpGet resource_uri, Event.sleep 500, Event.httpGet resource_uri,
        Event.sleep 1000, Event.httpGet resource_uri, Event.sleep 2000,
        Event.httpGet resource_uri, Event.sleep 4000, Event.httpGet resource_uri],
        .error e) := by
  obtain ⟨e, hlast⟩ := fetchFrom_fail_last session resource_uri DEFAULT_RETRY_COUNT
    (le_refl _) (by simpa using hall 4 (by simp [DEFAULT_RETRY_COUNT]))
  have hchain := fetchFrom_fail_chain session resource_uri 4 1 (by omega)
    (by simp [DEFAULT_RETRY_COUNT]) (by
      intro i hi
      simpa using hall i (by simp [DEFAULT_RETRY_COUNT]; omega))
  rw [show (1 + 4 : Nat) = DEFAULT_RETRY_COUNT from rfl, hlast] at hchain
  refine ⟨e, ?_⟩
  rw [fetch_resource_data, hchain]
  norm_num [fetchFailBlocks, fetchSleep, DEFAULT_RETRY_COUNT]

theorem create_sketch_all_fail (posts : Nat → HttpResult) (getResource : JVal → JVal)
    (name : String) (description : Option String) (hname : name ≠ "")
    (hall : ∀ i, i < DEFAULT_RETRY_COUNT → sketchAttemptRetried (posts i) = true) :
    create_sketch posts getResource name description =
      ([Event.httpPost sketchesUri, Event.sleep 500, Event.httpPost sketchesUri,
        Event.sleep 1000, Event.httpPost sketchesUri, Event.sleep 2000,
        Event.httpPost sketchesUri, Event.sleep 4000, Event.httpPost sketchesUri],
        .error .runtimeError) := by
  have hlast := createSketchGo_fail_last posts getResource 4
    (by simp [DEFAULT_RETRY_COUNT]) (hall 4 (by simp [DEFAULT_RETRY_COUNT]))
  have hchain := createSketchGo_fail_chain posts getResource 4 0
    (by simp [DEFAULT_RETRY_COUNT])
    (by intro i hi; simpa using hall i (by simp [DEFAULT_RETRY_COUNT]; omega))
  rw [show (0 + 4 : Nat) = 4 from rfl, hlast] at hchain
  rw [create_sketch, if_neg hname, hchain]
  norm_num [createFailBlocks]

theorem create_searchindex_all_fail (posts : Nat → HttpResult)
    (getResource : JVal → JVal)
    (hall : ∀ i, i < DEFAULT_RETRY_COUNT → searchindexAttemptRetried (posts i) = true) :
    create_searchindex posts getResource =
      ([Event.httpPost searchindicesUri, Event.sleep 500,
        Event.httpPost searchindicesUri, Event.sleep 1000,
        Event.httpPost searchindicesUri, Event.sleep 2000,
        Event.httpPost searchindicesUri, Event.sleep 4000,
        Event.httpPost searchindicesUri],
        .error .valueError) := by
  have hlast := createSearchindexGo_fail_last posts getResource 4
    (by simp [DEFAULT_RETRY_COUNT]) (hall 4 (by simp [DEFAULT_RETRY_COUNT]))
  have hchain := createSearchindexGo_fail_chain posts getResource 4 0
    (by simp [DEFAULT_RETRY_COUNT])
    (by intro i hi; simpa using hall i (by simp [DEFAULT_RETRY_COUNT]; omega))
  rw [show (0 + 4 : Nat) = 4 from rfl, hlast] at hchain
  rw [create_searchindex, hchain]
  norm_num [createFailBlocks]

theorem create_user_all_fail (posts : Nat → HttpResult)
    (hall : ∀ i, i < DEFAULT_RETRY_COUNT → userAttemptRetried (posts i) = true) :
    create_user posts =
      (List.replicate DEFAULT_RETRY_COUNT (Event.httpPost usersUri),
        .error .runtimeError) := by
  have hlast := createUserGo_fail_last posts 4
    (by simp [DEFAULT_RETRY_COUNT]) (hall 4 (by simp [DEFAULT_RETRY_COUNT]))
  have hchain := createUserGo_fail_chain posts 4 0
    (by simp [DEFAULT_RETRY_COUNT])
    (by intro i hi; simpa using hall i (by simp [DEFAULT_RETRY_COUNT]; omega))
  rw [show (0 + 4 : Nat) = 4 from rfl, hlast] at hchain
  rw [create_user, hchain]
  norm_num [DEFAULT_RETRY_COUNT, List.replicate_succ]

theorem create_sigmarule_all_fail (posts : Nat → HttpResult)
    (getResource : JVal → JVal) (rule_yaml : String)
    (hall : ∀ i, i < DEFAULT_RETRY_COUNT → userAttemptRetried (posts i) = true) :
    create_sigmarule posts getResource rule_yaml =
      (List.replicate DEFAULT_RETRY_COUNT (Event.httpPost sigmarulesUri),
        .error .runtimeError) := by
  have hlast := createSigmaruleGo_fail_last posts getResource 4
    (by simp [DEFAULT_RETRY_COUNT]) (hall 4 (by simp [DEFAULT_RETRY_COUNT]))
  have hchain := createSigmaruleGo_fail_chain posts getResource 4 0
    (by simp [DEFAULT_RETRY_COUNT])
    (by intro i hi; simpa using hall i (by simp [DEFAULT_RETRY_COUNT]; omega))
  rw [show (0 + 4 : Nat) = 4 from rfl, hlast] at hchain
  rw [create_sigmarule, hchain]
  norm_num [DEFAULT_RETRY_COUNT, List.replicate_succ]

theorem httpCount_failTraceG (u : String) :
    httpCount [Event.httpGet u, Event.sleep 500, Event.httpGet u, Event.sleep 1000,
      Event.httpGet u, Event.sleep 2000, Event.httpGet u, Event.sleep 4000,
      Event.httpGet u] = DEFAULT_RETRY_COUNT := by
  simp [httpCount, Event.isHttp, DEFAULT_RETRY_COUNT]

theorem httpCount_failTraceP (u : String) :
    httpCount [Event.httpPost u, Event.sleep 500, Event.httpPost u, Event.sleep 1000,
      Event.httpPost u, Event.sleep 2000, Event.httpPost u, Event.sleep 4000,
      Event.httpPost u] = DEFAULT_RETRY_COUNT := by
  simp [httpCount, Event.isHttp, DEFAULT_RETRY_COUNT]

theorem httpCount_replicateP (u : String) (n : Nat) :
    httpCount (List.replicate n (Event.httpPost u)) = n := by
  induction n with
  | zero => simp [httpCount]
  | succ n ih =>
      rw [httpCount] at ih ⊢
      rw [List.replicate_succ, List.countP_cons, ih]
      simp [Event.isHttp]

/-- C1, counterexample: with a transport that fails with a connection error
on every attempt, create_user raises after exactly one attempt, not after
DEFAULT_RETRY_COUNT = 5: its POST and get_response_json stand outside any
try/except, so the first connection error propagates immediately. -/
theorem C1_counterexample :
    create_user (fun _ => HttpResult.connFail) =
        ([Event.httpPost usersUri], Except.error PyErr.connectionError) ∧
      httpCount [Event.httpPost usersUri] = 1 ∧
      (1 : Nat) ≠ DEFAULT_RETRY_COUNT := by
  refine ⟨?_, by decide, by decide⟩
  rw [create_user]
  exact createUserGo_conn _ 0 rfl

/-- C1, amended: when every attempt fails with a failure kind
that the retry loop of the operation handles, the operation raises after exactly
DEFAULT_RETRY_COUNT = 5 attempts, never fewer, never more.  The handled
kinds are: all four transient kinds for fetch_resource_data and
create_searchindex; all but connection-level failures for create_sketch
(its POST stands outside the try, so a connection error raises at its
first occurrence); only the rejected/falsy-objects payload for
create_user and create_sigmarule (they have no try/except, so connection,
non-20x, and JSON-decode failures raise at their first occurrence). -/
theorem C1_amended (resource_uri name rule_yaml : String)
    (description : Option String) (hname : name ≠ "")
    (sessF p1 p2 p3 p4 : Nat → HttpResult) (g1 g2 g3 : JVal → JVal) :
    ((∀ i, i < DEFAULT_RETRY_COUNT → attemptFails (sessF i) = true) →
        httpCount (fetch_resource_data sessF resource_uri).1 = DEFAULT_RETRY_COUNT ∧
        ∃ e, (fetch_resource_data sessF resource_uri).2 = Except.error e) ∧
    ((∀ i, i < DEFAULT_RETRY_COUNT → sketchAttemptRetried (p1 i) = true) →
        httpCount (create_sketch p1 g1 name description).1 = DEFAULT_RETRY_COUNT ∧
        (create_sketch p1 g1 name description).2 = Except.error PyErr.runtimeError) ∧
    ((∀ i, i < DEFAULT_RETRY_COUNT → searchindexAttemptRetried (p2 i) = true) →
        httpCount (create_searchindex p2 g2).1 = DEFAULT_RETRY_COUNT ∧
        ∃ e, (create_searchindex p2 g2).2 = Except.error e) ∧
    ((∀ i, i < DEFAULT_RETRY_COUNT → userAttemptRetried (p3 i) = true) →
        httpCount (create_user p3).1 = DEFAULT_RETRY_COUNT ∧
        (create_user p3).2 = Except.error PyErr.runtimeError) ∧
    ((∀ i, i < DEFAULT_RETRY_COUNT → userAttemptRetried (p4 i) = true) →
        httpCount (create_sigmarule p4 g3 rule_yaml).1 = DEFAULT_RETRY_COUNT ∧
        (create_sigmarule p4 g3 rule_yaml).2 = Except.error PyErr.runtimeError) := by
  refine ⟨?_, ?_, ?_, ?_, ?_⟩
  · intro hall
    obtain ⟨e, hrun⟩ := fetch_all_fail sessF resource_uri hall
    rw [hrun]
    exact ⟨httpCount_failTraceG resource_uri, e, rfl⟩
  · intro hall
    rw [create_sketch_all_fail p1 g1 name description hname hall]
    exact ⟨httpCount_failTraceP sketchesUri, rfl⟩
  · intro hall
    rw [create_searchindex_all_fail p2 g2 hall]
    exact ⟨httpCount_failTraceP searchindicesUri, .valueError, rfl⟩
  · intro hall
    rw [create_user_all_fail p3 hall]
    exact ⟨httpCount_replicateP usersUri DEFAULT_RETRY_COUNT, rfl⟩
  · intro hall
    rw [create_sigmarule_all_fail p4 g3 rule_yaml hall]
    exact ⟨httpCount_replicateP sigmarulesUri DEFAULT_RETRY_COUNT, rfl⟩

/-- C1, witness: the amended exhaustion fact at concrete oracles -- a
session that always fails to connect for fetch_resource_data, a server
that always answers 500 for create_sketch and create_searchindex, and a
server that always answers 200 with an empty objects list for create_user
and create_sigmarule. -/
theorem C1_witness :
    (httpCount (fetch_resource_data (fun _ => HttpResult.connFail) "version/").1 =
        DEFAULT_RETRY_COUNT ∧
      ∃ e, (fetch_resource_data (fun _ => HttpResult.connFail) "version/").2 =
        Except.error e) ∧
    (httpCount (create_sketch (fun _ => HttpResult.resp 500 none) (fun j => j)
          "incident" none).1 = DEFAULT_RETRY_COUNT ∧
      (create_sketch (fun _ => HttpResult.resp 500 none) (fun j => j)
          "incident" none).2 = Except.error PyErr.runtimeError) ∧
    (httpCount (create_searchindex (fun _ => HttpResult.resp 500 none)
          (fun j => j)).1 = DEFAULT_RETRY_COUNT ∧
      ∃ e, (create_searchindex (fun _ => HttpResult.resp 500 none)
          (fun j => j)).2 = Except.error e) ∧
    (httpCount (create_user (fun _ =>
          HttpResult.resp 200 (some (JVal.dict [("objects", JVal.arr [])])))).1 =
        DEFAULT_RETRY_COUNT ∧
      (create_user (fun _ =>
          HttpResult.resp 200 (some (JVal.dict [("objects", JVal.arr [])])))).2 =
        Except.error PyErr.runtimeError) ∧
    (httpCount (create_sigmarule (fun _ =>
          HttpResult.resp 200 (some (JVal.dict [("objects", JVal.arr [])])))
          (fun j => j) "title: x").1 = DEFAULT_RETRY_COUNT ∧
      (create_sigmarule (fun _ =>
          HttpResult.resp 200 (some (JVal.dict [("objects", JVal.arr [])])))
          (fun j => j) "title: x").2 = Except.error PyErr.runtimeError) := by
  have h := C1_amended "version/" "incident" "title: x" none (by decide)
    (fun _ => HttpResult.connFail) (fun _ => HttpResult.resp 500 none)
    (fun _ => HttpResult.resp 500 none)
    (fun _ => HttpResult.resp 200 (some (JVal.dict [("objects", JVal.arr [])])))
    (fun _ => HttpResult.resp 200 (some (JVal.dict [("objects", JVal.arr [])])))
    (fun j => j) (fun j => j) (fun j => j)
  exact ⟨h.1 (by decide), h.2.1 (by decide), h.2.2.1 (by decide),
    h.2.2.2.1 (by decide), h.2.2.2.2 (by decide)⟩

theorem httpCount_append (a b : List Event) :
    httpCount (a ++ b) = httpCount a + httpCount b := by
  simp [httpCount, List.countP_append]

theorem postCount_append (a b : List Event) :
    postCount (a ++ b) = postCount a + postCount b := by
  simp [postCount, List.countP_append]

theorem fetchFrom_trace_shape (session : Nat → HttpResult) (resource_uri : String)
    (attempt : Nat) :
    ∃ t, (fetchFrom session resource_uri attempt).1 =
      fetchSleep attempt ++ Event.httpGet resource_uri :: t := by
  rw [fetchFrom]
  cases hres : session (attempt - 1) with
  | connFail =>
      by_cases h : DEFAULT_RETRY_COUNT ≤ attempt
      · exact ⟨[], by simp [h]⟩
      · exact ⟨(fetchFrom session resource_uri (attempt + 1)).1, by simp [h]⟩
  | resp status body =>
      cases hgr : get_response_json status body with
      | error e =>
          by_cases h : DEFAULT_RETRY_COUNT ≤ attempt
          · exact ⟨[], by simp [hgr, h]⟩
          · exact ⟨(fetchFrom session resource_uri (attempt + 1)).1, by simp [hgr, h]⟩
      | ok j =>
          by_cases ht : j.truthy
          · exact ⟨[], by simp [hgr, ht]⟩
          · by_cases h : DEFAULT_RETRY_COUNT ≤ attempt
            · exact ⟨[], by simp [hgr, ht, h]⟩
            · exact ⟨(fetchFrom session resource_uri (attempt + 1)).1,
                by simp [hgr, ht, h]⟩

theorem fetchFrom_http_pos (session : Nat → HttpResult) (resource_uri : String)
    (attempt : Nat) : 1 ≤ httpCount (fetchFrom session resource_uri attempt).1 := by
  obtain ⟨t, ht⟩ := fetchFrom_trace_shape session resource_uri attempt
  rw [ht, httpCount_append]
  simp [httpCount, List.countP_cons, Event.isHttp]
  omega

theorem createSketchGo_trace_shape (posts : Nat → HttpResult)
    (getResource : JVal → JVal) (attempt : Nat) :
    ∃ t, (createSketchGo posts getResource attempt).1 =
      Event.httpPost sketchesUri :: t := by
  rw [createSketchGo]
  cases posts attempt with
  | connFail => exact ⟨[], by simp⟩
  | resp status body =>
      cases hgr : get_response_json status body with
      | error e =>
          by_cases h : attempt < DEFAULT_RETRY_COUNT - 1
          · exact ⟨Event.sleep (500 * 2 ^ attempt) ::
              (createSketchGo posts getResource (attempt + 1)).1, by simp [hgr, h]⟩
          · exact ⟨[], by simp [hgr, h]⟩
      | ok d =>
          cases hx : extractObjectsId d with
          | some sid => exact ⟨(get_sketch getResource sid).1, by simp [hgr, hx]⟩
          | none =>
              by_cases h : attempt < DEFAULT_RETRY_COUNT - 1
              · exact ⟨Event.sleep (500 * 2 ^ attempt) ::
                  (createSketchGo posts getResource (attempt + 1)).1,
                  by simp [hgr, hx, h]⟩
              · exact ⟨[], by simp [hgr, hx, h]⟩

theorem createSketchGo_post_pos (posts : Nat → HttpResult)
    (getResource : JVal → JVal) (attempt : Nat) :
    1 ≤ postCount (createSketchGo posts getResource attempt).1 := by
  obtain ⟨t, ht⟩ := createSketchGo_trace_shape posts getResource attempt
  rw [ht]
  simp [postCount, List.countP_cons, Event.isPost]

theorem createSearchindexGo_trace_shape (posts : Nat → HttpResult)
    (getResource : JVal → JVal) (attempt : Nat) :
    ∃ t, (createSearchindexGo posts getResource attempt).1 =
      Event.httpPost searchindicesUri :: t := by
  rw [createSearchindexGo]
  cases posts attempt with
  | connFail =>
      by_cases h : attempt < DEFAULT_RETRY_COUNT - 1
      · exact ⟨Event.sleep (500 * 2 ^ attempt) ::
          (createSearchindexGo posts getResource (attempt + 1)).1, by simp [h]⟩
      · exact ⟨[], by simp [h]⟩
  | resp status body =>
      cases hgr : get_response_json status body with
      | error e =>
          by_cases h : attempt < DEFAULT_RETRY_COUNT - 1
          · exact ⟨Event.sleep (500 * 2 ^ attempt) ::
              (createSearchindexGo posts getResource (attempt + 1)).1, by simp [hgr, h]⟩
          · exact ⟨[], by simp [hgr, h]⟩
      | ok d =>
          cases hx : extractObjectsId d with
          | some sid => exact ⟨[Event.fetchResource sid], by simp [hgr, hx]⟩
          | none =>
              by_cases h : attempt < DEFAULT_RETRY_COUNT - 1
              · exact ⟨Event.sleep (500 * 2 ^ attempt) ::
                  (createSearchindexGo posts getResource (attempt + 1)).1,
                  by simp [hgr, hx, h]⟩
              · exact ⟨[], by simp [hgr, hx, h]⟩

theorem createSearchindexGo_post_pos (posts : Nat → HttpResult)
    (getResource : JVal → JVal) (attempt : Nat) :
    1 ≤ postCount (createSearchindexGo posts getResource attempt).1 := by
  obtain ⟨t, ht⟩ := createSearchindexGo_trace_shape posts getResource attempt
  rw [ht]
  simp [postCount, List.countP_cons, Event.isPost]

theorem createUserGo_trace_shape (posts : Nat → HttpResult) (retry_count : Nat) :
    ∃ t, (createUserGo posts retry_count).1 = Event.httpPost usersUri :: t := by
  rw [createUserGo]
  cases hres : posts retry_count with
  | connFail => exact ⟨[], by simp⟩
  | resp status body =>
      cases hgr : get_response_json status body with
      | error e => exact ⟨[], by simp [hgr]⟩
      | ok d =>
          by_cases ht : (d.getD "objects" .null).truthy
          · cases hx : firstElemField (d.getD "objects" .null) "id" with
            | ok uid => exact ⟨[], by simp [hgr, ht, hx]⟩
            | error e => exact ⟨[], by simp [hgr, ht, hx]⟩
          · by_cases h : retry_count + 1 < DEFAULT_RETRY_COUNT
            · exact ⟨(createUserGo posts (retry_count + 1)).1, by simp [hgr, ht, h]⟩
            · exact ⟨[], by simp [hgr, ht, h]⟩

theorem createUserGo_post_pos (posts : Nat → HttpResult) (retry_count : Nat) :
    1 ≤ postCount (createUserGo posts retry_count).1 := by
  obtain ⟨t, ht⟩ := createUserGo_trace_shape posts retry_count
  rw [ht]
  simp [postCount, List.countP_cons, Event.isPost]

theorem createSigmaruleGo_trace_shape (posts : Nat → HttpResult)
    (getResource : JVal → JVal) (retry_count : Nat) :
    ∃ t, (createSigmaruleGo posts getResource retry_count).1 =
      Event.httpPost sigmarulesUri :: t := by
  rw [createSigmaruleGo]
  cases hres : posts retry_count with
  | connFail => exact ⟨[], by simp⟩
  | resp status body =>
      cases hgr : get_response_json status body with
      | error e => exact ⟨[], by simp [hgr]⟩
      | ok d =>
          by_cases ht : (d.getD "objects" .null).truthy
          · cases hx : firstElemField (d.getD "objects" .null) "rule_uuid" with
            | ok uid => exact ⟨(get_sigmarule getResource uid).1, by simp [hgr, ht, hx]⟩
            | error e => exact ⟨[], by simp [hgr, ht, hx]⟩
          · by_cases h : retry_count + 1 < DEFAULT_RETRY_COUNT
            · exact ⟨(createSigmaruleGo posts getResource (retry_count + 1)).1,
                by simp [hgr, ht, h]⟩
            · exact ⟨[], by simp [hgr, ht, h]⟩

theorem createSigmaruleGo_post_pos (posts : Nat → HttpResult)
    (getResource : JVal → JVal) (retry_count : Nat) :
    1 ≤ postCount (createSigmaruleGo posts getResource retry_count).1 := by
  obtain ⟨t, ht⟩ := createSigmaruleGo_trace_shape posts getResource retry_count
  rw [ht]
  simp [postCount, List.countP_cons, Event.isPost]

/-- C2, counterexample: create_sketch with a transport that fails to
connect raises a connection error after a single POST -- its POST stands
outside the try block, so a connection-level failure is not classified
transient and the operation raises before the retry budget of
DEFAULT_RETRY_COUNT = 5 is exhausted. -/
theorem C2_counterexample :
    create_sketch (fun _ => HttpResult.connFail) (fun j => j) "incident" none =
        ([Event.httpPost sketchesUri], Except.error PyErr.connectionError) ∧
      httpCount [Event.httpPost sketchesUri] = 1 ∧
      (1 : Nat) < DEFAULT_RETRY_COUNT := by
  refine ⟨?_, by decide, by decide⟩
  rw [create_sketch, if_neg (by decide)]
  exact createSketchGo_conn _ _ 0 rfl

/-- C2, amended: the failure kinds each operation classifies transient
and retries are operation-specific.  fetch_resource_data retries all four
kinds (connection, non-20x, decode, falsy payload) and create_searchindex
retries all four (connection, non-20x, decode, rejected objects payload):
a first-attempt failure of a handled kind leads to a second attempt.
create_sketch retries all kinds except connection-level failures, which
raise immediately after one POST.  create_user and create_sigmarule retry
only the rejected/falsy-objects payload; a connection failure or any
get_response_json failure (non-20x status, JSON-decode failure) raises
immediately after one POST. -/
theorem C2_amended (resource_uri name rule_yaml : String) (hname : name ≠ "")
    (sessF p1 p2 p3 p4 : Nat → HttpResult) (g1 g2 g3 : JVal → JVal) :
    (attemptFails (sessF 0) = true →
        2 ≤ httpCount (fetch_resource_data sessF resource_uri).1) ∧
    (sketchAttemptRetried (p1 0) = true →
        2 ≤ postCount (create_sketch p1 g1 name none).1) ∧
    (p1 0 = HttpResult.connFail →
        create_sketch p1 g1 name none =
          ([Event.httpPost sketchesUri], Except.error PyErr.connectionError)) ∧
    (searchindexAttemptRetried (p2 0) = true →
        2 ≤ postCount (create_searchindex p2 g2).1) ∧
    (userAttemptRetried (p3 0) = true → 2 ≤ postCount (create_user p3).1) ∧
    (p3 0 = HttpResult.connFail →
        create_user p3 =
          ([Event.httpPost usersUri], Except.error PyErr.connectionError)) ∧
    (∀ status body e, p3 0 = HttpResult.resp status body →
        get_response_json status body = Except.error e →
        create_user p3 = ([Event.httpPost usersUri], Except.error e)) ∧
    (userAttemptRetried (p4 0) = true →
        2 ≤ postCount (create_sigmarule p4 g3 rule_yaml).1) ∧
    (p4 0 = HttpResult.connFail →
        create_sigmarule p4 g3 rule_yaml =
          ([Event.httpPost sigmarulesUri], Except.error PyErr.connectionError)) ∧
    (∀ status body e, p4 0 = HttpResult.resp status body →
        get_response_json status body = Except.error e →
        create_sigmarule p4 g3 rule_yaml =
          ([Event.httpPost sigmarulesUri], Except.error e)) := by
  refine ⟨?_, ?_, ?_, ?_, ?_, ?_, ?_, ?_, ?_, ?_⟩
  · intro hf
    rw [fetch_resource_data, fetchFrom_fail_step sessF resource_uri 1
      (by simp [DEFAULT_RETRY_COUNT]) hf]
    have hpos := fetchFrom_http_pos sessF resource_uri (1 + 1)
    rw [httpCount_append]
    have hone : httpCount (fetchSleep 1 ++ [Event.httpGet resource_uri]) = 1 := by
      simp [httpCount, fetchSleep, Event.isHttp]
    rw [hone]
    omega
  · intro hf
    rw [create_sketch, if_neg hname, createSketchGo_fail_step p1 g1 0
      (by simp [DEFAULT_RETRY_COUNT]) hf]
    have hpos := createSketchGo_post_pos p1 g1 (0 + 1)
    rw [postCount_append]
    have hone : postCount [Event.httpPost sketchesUri,
        Event.sleep (500 * 2 ^ 0)] = 1 := by
      simp [postCount, Event.isPost]
    rw [hone]
    omega
  · intro hc
    rw [create_sketch, if_neg hname]
    exact createSketchGo_conn p1 g1 0 hc
  · intro hf
    rw [create_searchindex, createSearchindexGo_fail_step p2 g2 0
      (by simp [DEFAULT_RETRY_COUNT]) hf]
    have hpos := createSearchindexGo_post_pos p2 g2 (0 + 1)
    rw [postCount_append]
    have hone : postCount [Event.httpPost searchindicesUri,
        Event.sleep (500 * 2 ^ 0)] = 1 := by
      simp [postCount, Event.isPost]
    rw [hone]
    omega
  · intro hf
    rw [create_user, createUserGo_fail_step p3 0 (by simp [DEFAULT_RETRY_COUNT]) hf]
    have hpos := createUserGo_post_pos p3 1
    rw [show (Event.httpPost usersUri :: (createUserGo p3 1).1) =
      [Event.httpPost usersUri] ++ (createUserGo p3 1).1 from rfl, postCount_append]
    have hone : postCount [Event.httpPost usersUri] = 1 := by
      simp [postCount, Event.isPost]
    rw [hone]
    omega
  · intro hc
    rw [create_user]
    exact createUserGo_conn p3 0 hc
  · intro status body e hres hgr
    rw [create_user]
    exact createUserGo_propagates p3 0 status body e hres hgr
  · intro hf
    rw [create_sigmarule, createSigmaruleGo_fail_step p4 g3 0
      (by simp [DEFAULT_RETRY_COUNT]) hf]
    have hpos := createSigmaruleGo_post_pos p4 g3 1
    rw [show (Event.httpPost sigmarulesUri :: (createSigmaruleGo p4 g3 1).1) =
      [Event.httpPost sigmarulesUri] ++ (createSigmaruleGo p4 g3 1).1 from rfl,
      postCount_append]
    have hone : postCount [Event.httpPost sigmarulesUri] = 1 := by
      simp [postCount, Event.isPost]
    rw [hone]
    omega
  · intro hc
    rw [create_sigmarule]
    exact createSigmaruleGo_conn p4 g3 0 hc
  · intro status body e hres hgr
    rw [create_sigmarule]
    exact createSigmaruleGo_propagates p4 g3 0 status body e hres hgr

/-- C2, witness: the amended classification at concrete oracles -- a 404
answer for fetch_resource_data, an empty-objects 200 answer for the create
loops (both retried, a second attempt occurs), and a connection failure
for create_sketch and create_user (raising immediately). -/
theorem C2_witness :
    (2 ≤ httpCount (fetch_resource_data (fun _ => HttpResult.resp 404 none)
        "version/").1) ∧
    (2 ≤ postCount (create_sketch (fun _ =>
        HttpResult.resp 200 (some (JVal.dict [("objects", JVal.arr [])])))
        (fun j => j) "incident" none).1) ∧
    (create_sketch (fun _ => HttpResult.connFail) (fun j => j) "case" none =
      ([Event.httpPost sketchesUri], Except.error PyErr.connectionError)) ∧
    (2 ≤ postCount (create_searchindex (fun _ => HttpResult.connFail)
        (fun j => j)).1) ∧
    (2 ≤ postCount (create_user (fun _ =>
        HttpResult.resp 200 (some (JVal.dict [("objects", JVal.arr [])])))).1) ∧
    (create_user (fun _ => HttpResult.connFail) =
      ([Event.httpPost usersUri], Except.error PyErr.connectionError)) ∧
    (create_user (fun _ => HttpResult.resp 404 none) =
      ([Event.httpPost usersUri], Except.error PyErr.runtimeError)) ∧
    (2 ≤ postCount (create_sigmarule (fun _ =>
        HttpResult.resp 200 (some (JVal.dict [("objects", JVal.arr [])])))
        (fun j => j) "title: x").1) ∧
    (create_sigmarule (fun _ => HttpResult.connFail) (fun j => j) "title: x" =
      ([Event.httpPost sigmarulesUri], Except.error PyErr.connectionError)) ∧
    (create_sigmarule (fun _ => HttpResult.resp 200 none) (fun j => j) "title: x" =
      ([Event.httpPost sigmarulesUri], Except.error PyErr.valueError)) := by
  have h1 := C2_amended "version/" "incident" "title: x" (by decide)
    (fun _ => HttpResult.resp 404 none)
    (fun _ => HttpResult.resp 200 (some (JVal.dict [("objects", JVal.arr [])])))
    (fun _ => HttpResult.connFail)
    (fun _ => HttpResult.resp 200 (some (JVal.dict [("objects", JVal.arr [])])))
    (fun _ => HttpResult.resp 200 (some (JVal.dict [("objects", JVal.arr [])])))
    (fun j => j) (fun j => j) (fun j => j)
  have h2 := C2_amended "version/" "case" "title: x" (by decide)
    (fun _ => HttpResult.resp 404 none)
    (fun _ => HttpResult.connFail)
    (fun _ => HttpResult.connFail)
    (fun _ => HttpResult.connFail)
    (fun _ => HttpResult.connFail)
    (fun j => j) (fun j => j) (fun j => j)
  have h3 := C2_amended "version/" "case" "title: x" (by decide)
    (fun _ => HttpResult.resp 404 none)
    (fun _ => HttpResult.connFail)
    (fun _ => HttpResult.connFail)
    (fun _ => HttpResult.resp 404 none)
    (fun _ => HttpResult.resp 200 none)
    (fun j => j) (fun j => j) (fun j => j)
  refine ⟨h1.1 (by decide), h1.2.1 (by decide), h2.2.2.1 rfl,
    h1.2.2.2.1 (by decide), h1.2.2.2.2.1 (by decide), h2.2.2.2.2.2.1 rfl,
    h3.2.2.2.2.2.2.1 404 none PyErr.runtimeError rfl rfl,
    h1.2.2.2.2.2.2.2.1 (by decide), h2.2.2.2.2.2.2.2.2.1 rfl,
    h3.2.2.2.2.2.2.2.2.2 200 none PyErr.valueError rfl rfl⟩

/-- C3: for every 1-indexed attempt m with 1 < m <= 5, the delay slept
before issuing attempt m is 0.5 * 2^(m-2) seconds -- 500 * 2^(m-2) ms,
i.e. attempts 2,3,4,5 wait 0.5s, 1s, 2s, 4s -- in both variants: the
generic fetch (which sleeps before the current attempt) and the create
loop (which sleeps after a failed attempt, before the next), and the
unified schedule delay(a) = 0.5 * 2^(a-1) for a >= 1 with a = 0 meaning
no delay describes the observed delays of both, taking a = m - 1. -/
theorem C3_theorem (resource_uri name : String) (hname : name ≠ "")
    (sessF p1 : Nat → HttpResult) (g1 : JVal → JVal)
    (hallF : ∀ i, i < DEFAULT_RETRY_COUNT → attemptFails (sessF i) = true)
    (hallS : ∀ i, i < DEFAULT_RETRY_COUNT → sketchAttemptRetried (p1 i) = true) :
    sleepsOf (fetch_resource_data sessF resource_uri).1 =
        [2, 3, 4, 5].map (fun m => 500 * 2 ^ (m - 2)) ∧
      sleepsOf (create_sketch p1 g1 name none).1 =
        [2, 3, 4, 5].map (fun m => 500 * 2 ^ (m - 2)) ∧
      (∀ m, 2 ≤ m → 500 * 2 ^ (m - 2) = unifiedDelayMs (m - 1)) ∧
      unifiedDelayMs 0 = 0 ∧
      sleepsOf (fetch_resource_data sessF resource_uri).1 =
        [1, 2, 3, 4].map unifiedDelayMs := by
  obtain ⟨e, hrunF⟩ := fetch_all_fail sessF resource_uri hallF
  have hrunS := create_sketch_all_fail p1 g1 name none hname hallS
  refine ⟨?_, ?_, ?_, by simp [unifiedDelayMs], ?_⟩
  · rw [hrunF]
    simp [sleepsOf, Event.sleepMs]
  · rw [hrunS]
    simp [sleepsOf, Event.sleepMs]
  · intro m hm
    rw [unifiedDelayMs, if_neg (by omega)]
    have harith : m - 1 - 1 = m - 2 := by omega
    rw [harith]
  · rw [hrunF]
    simp [sleepsOf, Event.sleepMs, unifiedDelayMs]

/-- C3, witness: the schedule at concrete all-failing oracles -- a session
answering 500 with an undecodable body on every attempt. -/
theorem C3_witness :
    sleepsOf (fetch_resource_data (fun _ => HttpResult.resp 500 none)
          "version/").1 = [2, 3, 4, 5].map (fun m => 500 * 2 ^ (m - 2)) ∧
      sleepsOf (create_sketch (fun _ => HttpResult.resp 500 none) (fun j => j)
          "incident" none).1 = [2, 3, 4, 5].map (fun m => 500 * 2 ^ (m - 2)) ∧
      (∀ m, 2 ≤ m → 500 * 2 ^ (m - 2) = unifiedDelayMs (m - 1)) ∧
      unifiedDelayMs 0 = 0 ∧
      sleepsOf (fetch_resource_data (fun _ => HttpResult.resp 500 none)
          "version/").1 = [1, 2, 3, 4].map unifiedDelayMs :=
  C3_theorem "version/" "incident" (by decide)
    (fun _ => HttpResult.resp 500 none) (fun _ => HttpResult.resp 500 none)
    (fun j => j) (by decide) (by decide)

/-- C4: when the POST of attempt k succeeds with a payload carrying
objects[0].id (for example with the response body containing objects
whose first element has id 42), create_sketch issues a follow-up fetch of
the full resource by that id -- the fetchResource event, a second network
round trip modelled from the spec because the sketch wrapper module is
not under src/ -- and returns the result of that fetch. -/
theorem C4_theorem (posts : Nat → HttpResult) (getResource : JVal → JVal)
    (name : String) (description : Option String) (k : Nat) (sid : JVal)
    (hname : name ≠ "") (hk : k < DEFAULT_RETRY_COUNT)
    (hfail : ∀ i, i < k → sketchAttemptRetried (posts i) = true)
    (hsucc : sketchSuccessId (posts k) = some sid) :
    create_sketch posts getResource name description =
      (createFailBlocks sketchesUri 0 k ++
          [Event.httpPost sketchesUri, Event.fetchResource sid],
        .ok (getResource sid)) := by
  have hchain := createSketchGo_fail_chain posts getResource k 0
    (by omega) (by intro i hi; simpa using hfail i hi)
  have hsuc := createSketchGo_success posts getResource (0 + k) sid
    (by simpa using hsucc)
  rw [create_sketch, if_neg hname, hchain, hsuc]

/-- C4, witness: a POST that fails once with a 500 and then succeeds with
the response objects [ dict [("id", 42)] ]: the operation issues the
follow-up fetch for id 42 and returns its result. -/
theorem C4_witness :
    create_sketch
        (fun i => if i = 0 then HttpResult.resp 500 none
          else HttpResult.resp 200
            (some (JVal.dict [("objects", JVal.arr [JVal.dict [("id", JVal.nat 42)]])])))
        (fun j => JVal.arr [JVal.str "resource", j]) "incident" none =
      (createFailBlocks sketchesUri 0 1 ++
          [Event.httpPost sketchesUri, Event.fetchResource (JVal.nat 42)],
        .ok (JVal.arr [JVal.str "resource", JVal.nat 42])) :=
  C4_theorem
    (fun i => if i = 0 then HttpResult.resp 500 none
      else HttpResult.resp 200
        (some (JVal.dict [("objects", JVal.arr [JVal.dict [("id", JVal.nat 42)]])])))
    (fun j => JVal.arr [JVal.str "resource", j]) "incident" none 1 (JVal.nat 42)
    (by decide) (by decide) (by decide) (by rfl)

theorem httpCount_fetchSleep (attempt : Nat) :
    httpCount (fetchSleep attempt) = 0 := by
  rw [fetchSleep]
  split <;> simp [httpCount, Event.isHttp]

theorem httpCount_fetchFailBlocks (u : String) :
    ∀ n a, httpCount (fetchFailBlocks u a n) = n := by
  intro n
  induction n with
  | zero => intro a; simp [fetchFailBlocks, httpCount]
  | succ n ih =>
      intro a
      rw [fetchFailBlocks, httpCount_append, httpCount_append,
        httpCount_fetchSleep, ih]
      simp [httpCount, Event.isHttp]
      omega

/-- C5, counterexample: a create_sketch whose first attempt succeeds with
objects [ dict [("id", 42)] ] performs a further HTTP round trip after the
successful attempt -- the follow-up fetch of the created resource -- so
"no further HTTP calls occur after the successful attempt" is false for
the create variant as stated. -/
theorem C5_counterexample :
    create_sketch (fun _ => HttpResult.resp 200
          (some (JVal.dict [("objects", JVal.arr [JVal.dict [("id", JVal.nat 42)]])])))
        (fun j => j) "incident" none =
      ([Event.httpPost sketchesUri, Event.fetchResource (JVal.nat 42)],
        .ok (JVal.nat 42)) ∧
    Event.isHttp (Event.fetchResource (JVal.nat 42)) = true := by
  constructor
  · rw [create_sketch, if_neg (by decide)]
    exact createSketchGo_success _ _ 0 (JVal.nat 42) (by rfl)
  · rfl

/-- C5, amended: if attempt k <= 5 succeeds, the operation returns
immediately with no further sleeps and no further retry attempts:
the trace of fetch_resource_data ends at the successful GET (exactly k calls,
nothing after), and the trace of create_sketch continues after the successful
POST only with the single follow-up fetch of the created resource -- no
sleep and no further POST. -/
theorem C5_amended (resource_uri name : String) (sess posts : Nat → HttpResult)
    (getResource : JVal → JVal) (k l : Nat) (j sid : JVal)
    (hname : name ≠ "")
    (hk1 : 1 ≤ k) (hk5 : k ≤ DEFAULT_RETRY_COUNT)
    (hfailF : ∀ i, i < k - 1 → attemptFails (sess i) = true)
    (hsuccF : fetchSuccess (sess (k - 1)) = some j)
    (hl : l < DEFAULT_RETRY_COUNT)
    (hfailS : ∀ i, i < l → sketchAttemptRetried (posts i) = true)
    (hsuccS : sketchSuccessId (posts l) = some sid) :
    fetch_resource_data sess resource_uri =
        (fetchFailBlocks resource_uri 1 (k - 1) ++
          (fetchSleep k ++ [Event.httpGet resource_uri]), .ok j) ∧
      httpCount (fetchFailBlocks resource_uri 1 (k - 1) ++
          (fetchSleep k ++ [Event.httpGet resource_uri])) = k ∧
      create_sketch posts getResource name none =
        (createFailBlocks sketchesUri 0 l ++
          [Event.httpPost sketchesUri, Event.fetchResource sid],
          .ok (getResource sid)) ∧
      sleepsOf [Event.fetchResource sid] = [] ∧
      postCount [Event.fetchResource sid] = 0 := by
  refine ⟨?_, ?_, ?_, by simp [sleepsOf, Event.sleepMs], by simp [postCount, Event.isPost]⟩
  · have hchain := fetchFrom_fail_chain sess resource_uri (k - 1) 1 (by omega)
      (by simp [DEFAULT_RETRY_COUNT] at hk5 ⊢; omega)
      (by intro i hi; simpa using hfailF i hi)
    have h1k : 1 + (k - 1) = k := by omega
    rw [h1k] at hchain
    have hsuc := fetchFrom_success sess resource_uri k j hsuccF
    rw [fetch_resource_data, hchain, hsuc]
  · rw [httpCount_append, httpCount_append, httpCount_fetchFailBlocks,
      httpCount_fetchSleep]
    simp [httpCount, Event.isHttp]
    omega
  · have hchain := createSketchGo_fail_chain posts getResource l 0
      (by omega) (by intro i hi; simpa using hfailS i hi)
    have hsuc := createSketchGo_success posts getResource (0 + l) sid
      (by simpa using hsuccS)
    rw [create_sketch, if_neg hname, hchain, hsuc]

/-- C5, witness: the amended statement at a session that fails once and
succeeds at attempt 2, and a create POST that fails once and succeeds at
its second attempt with id 7. -/
theorem C5_witness :
    fetch_resource_data
        (fun i => if i = 0 then HttpResult.connFail
          else HttpResult.resp 200 (some (JVal.dict [("meta", JVal.nat 1)])))
        "version/" =
      (fetchFailBlocks "version/" 1 1 ++
        (fetchSleep 2 ++ [Event.httpGet "version/"]),
        .ok (JVal.dict [("meta", JVal.nat 1)])) ∧
    httpCount (fetchFailBlocks "version/" 1 1 ++
        (fetchSleep 2 ++ [Event.httpGet "version/"])) = 2 ∧
    create_sketch
        (fun i => if i = 0 then HttpResult.resp 500 none
          else HttpResult.resp 200
            (some (JVal.dict [("objects", JVal.arr [JVal.dict [("id", JVal.nat 7)]])])))
        (fun j => JVal.arr [j]) "case" none =
      (createFailBlocks sketchesUri 0 1 ++
        [Event.httpPost sketchesUri, Event.fetchResource (JVal.nat 7)],
        .ok (JVal.arr [JVal.nat 7])) ∧
    sleepsOf [Event.fetchResource (JVal.nat 7)] = [] ∧
    postCount [Event.fetchResource (JVal.nat 7)] = 0 :=
  C5_amended "version/" "case"
    (fun i => if i = 0 then HttpResult.connFail
      else HttpResult.resp 200 (some (JVal.dict [("meta", JVal.nat 1)])))
    (fun i => if i = 0 then HttpResult.resp 500 none
      else HttpResult.resp 200
        (some (JVal.dict [("objects", JVal.arr [JVal.dict [("id", JVal.nat 7)]])])))
    (fun j => JVal.arr [j]) 2 1 (JVal.dict [("meta", JVal.nat 1)]) (JVal.nat 7)
    (by decide) (by decide) (by decide) (by decide) (by rfl)
    (by decide) (by decide) (by rfl)

/-- C6, counterexample: create_sigmarule called with empty rule text does
not raise before any network call -- it issues its POST (here against a
transport that fails to connect, so one HTTP call is made and the
connection error propagates). -/
theorem C6_counterexample :
    (create_sigmarule (fun _ => HttpResult.connFail) (fun j => j) "").1 =
        [Event.httpPost sigmarulesUri] ∧
      (create_sigmarule (fun _ => HttpResult.connFail) (fun j => j) "").2 =
        Except.error PyErr.connectionError ∧
      httpCount [Event.httpPost sigmarulesUri] = 1 := by
  have h : create_sigmarule (fun _ => HttpResult.connFail) (fun j => j) "" =
      ([Event.httpPost sigmarulesUri], .error .connectionError) := by
    rw [create_sigmarule]
    exact createSigmaruleGo_conn _ _ 0 rfl
  exact ⟨by rw [h], by rw [h], by decide⟩

/-- C6, amended: create_sketch with an empty name and
parse_sigmarule_by_text with empty rule text raise ValueError before any
network call (their traces are empty); create_sigmarule performs no
empty-rule-text pre-check: the rule text does not influence its control
flow at all, and even with empty text the operation enters the retry loop
and its first event is the POST to the sigmarules endpoint. -/
theorem C6_amended (posts : Nat → HttpResult) (getResource : JVal → JVal)
    (description : Option String) :
    create_sketch posts getResource "" description =
        ([], Except.error PyErr.valueError) ∧
      parse_sigmarule_by_text "" = ([], Except.error PyErr.valueError) ∧
      (∀ rule_yaml, create_sigmarule posts getResource rule_yaml =
        createSigmaruleGo posts getResource 0) ∧
      (∃ t, (create_sigmarule posts getResource "").1 =
        Event.httpPost sigmarulesUri :: t) := by
  refine ⟨by rw [create_sketch, if_pos rfl], rfl, fun _ => rfl, ?_⟩
  rw [create_sigmarule]
  exact createSigmaruleGo_trace_shape posts getResource 0

theorem extractObjectsId_of_falsy (d : JVal)
    (h : (d.getD "objects" .null).truthy = false) : extractObjectsId d = none := by
  cases hv : d.getD "objects" .null with
  | arr xs =>
      cases xs with
      | nil => simp [extractObjectsId, hv]
      | cons a l => rw [hv] at h; simp [JVal.truthy] at h
  | null => simp [extractObjectsId, hv]
  | nat n => simp [extractObjectsId, hv]
  | str s => simp [extractObjectsId, hv]
  | dict fs => simp [extractObjectsId, hv]

theorem emptyObjects_retried_sketch (r : HttpResult)
    (h : emptyObjectsResp r = true) : sketchAttemptRetried r = true := by
  cases r with
  | connFail => simp [emptyObjectsResp] at h
  | resp status body =>
      rw [emptyObjectsResp] at h
      rw [sketchAttemptRetried]
      cases hgr : get_response_json status body with
      | error e => simp
      | ok d =>
          rw [hgr] at h
          simp at h
          simp [extractObjectsId_of_falsy d h]

theorem emptyObjects_retried_searchindex (r : HttpResult)
    (h : emptyObjectsResp r = true) : searchindexAttemptRetried r = true := by
  cases r with
  | connFail => rfl
  | resp status body =>
      rw [emptyObjectsResp] at h
      rw [searchindexAttemptRetried]
      cases hgr : get_response_json status body with
      | error e => simp
      | ok d =>
          rw [hgr] at h
          simp at h
          simp [extractObjectsId_of_falsy d h]

theorem emptyObjects_retried_user (r : HttpResult)
    (h : emptyObjectsResp r = true) : userAttemptRetried r = true := h

theorem postCount_failTraceP (u : String) :
    postCount [Event.httpPost u, Event.sleep 500, Event.httpPost u, Event.sleep 1000,
      Event.httpPost u, Event.sleep 2000, Event.httpPost u, Event.sleep 4000,
      Event.httpPost u] = DEFAULT_RETRY_COUNT := by
  simp [postCount, Event.isPost, DEFAULT_RETRY_COUNT]

theorem postCount_replicateP (u : String) (n : Nat) :
    postCount (List.replicate n (Event.httpPost u)) = n := by
  induction n with
  | zero => simp [postCount]
  | succ n ih =>
      rw [postCount] at ih ⊢
      rw [List.replicate_succ, List.countP_cons, ih]
      simp [Event.isPost]

/-- C7: in every operation whose validation predicate requires a
non-empty objects payload (the four create operations), a 20x response
whose decoded JSON has a falsy objects value -- for example an empty
objects list -- is classified a transient validation failure: a first
such attempt is followed by a second attempt, and when every attempt is
such a response the operation raises after exhausting all 5 attempts, so
the response is never returned as a success. -/
theorem C7_theorem (name rule_yaml : String) (hname : name ≠ "")
    (p1 p2 p3 p4 : Nat → HttpResult) (g1 g2 g3 : JVal → JVal) :
    ((∀ i, i < DEFAULT_RETRY_COUNT → emptyObjectsResp (p1 i) = true) →
        postCount (create_sketch p1 g1 name none).1 = DEFAULT_RETRY_COUNT ∧
        (create_sketch p1 g1 name none).2 = Except.error PyErr.runtimeError) ∧
    (emptyObjectsResp (p1 0) = true →
        2 ≤ postCount (create_sketch p1 g1 name none).1) ∧
    ((∀ i, i < DEFAULT_RETRY_COUNT → emptyObjectsResp (p2 i) = true) →
        postCount (create_searchindex p2 g2).1 = DEFAULT_RETRY_COUNT ∧
        ∃ e, (create_searchindex p2 g2).2 = Except.error e) ∧
    (emptyObjectsResp (p2 0) = true →
        2 ≤ postCount (create_searchindex p2 g2).1) ∧
    ((∀ i, i < DEFAULT_RETRY_COUNT → emptyObjectsResp (p3 i) = true) →
        postCount (create_user p3).1 = DEFAULT_RETRY_COUNT ∧
        (create_user p3).2 = Except.error PyErr.runtimeError) ∧
    (emptyObjectsResp (p3 0) = true → 2 ≤ postCount (create_user p3).1) ∧
    ((∀ i, i < DEFAULT_RETRY_COUNT → emptyObjectsResp (p4 i) = true) →
        postCount (create_sigmarule p4 g3 rule_yaml).1 = DEFAULT_RETRY_COUNT ∧
        (create_sigmarule p4 g3 rule_yaml).2 = Except.error PyErr.runtimeError) ∧
    (emptyObjectsResp (p4 0) = true →
        2 ≤ postCount (create_sigmarule p4 g3 rule_yaml).1) := by
  refine ⟨?_, ?_, ?_, ?_, ?_, ?_, ?_, ?_⟩
  · intro hall
    rw [create_sketch_all_fail p1 g1 name none hname
      (fun i hi => emptyObjects_retried_sketch _ (hall i hi))]
    exact ⟨postCount_failTraceP sketchesUri, rfl⟩
  · intro h0
    rw [create_sketch, if_neg hname, createSketchGo_fail_step p1 g1 0
      (by simp [DEFAULT_RETRY_COUNT]) (emptyObjects_retried_sketch _ h0)]
    have hpos := createSketchGo_post_pos p1 g1 (0 + 1)
    rw [postCount_append]
    have hone : postCount [Event.httpPost sketchesUri,
        Event.sleep (500 * 2 ^ 0)] = 1 := by
      simp [postCount, Event.isPost]
    rw [hone]
    omega
  · intro hall
    rw [create_searchindex_all_fail p2 g2
      (fun i hi => emptyObjects_retried_searchindex _ (hall i hi))]
    exact ⟨postCount_failTraceP searchindicesUri, .valueError, rfl⟩
  · intro h0
    rw [create_searchindex, createSearchindexGo_fail_step p2 g2 0
      (by simp [DEFAULT_RETRY_COUNT]) (emptyObjects_retried_searchindex _ h0)]
    have hpos := createSearchindexGo_post_pos p2 g2 (0 + 1)
    rw [postCount_append]
    have hone : postCount [Event.httpPost searchindicesUri,
        Event.sleep (500 * 2 ^ 0)] = 1 := by
      simp [postCount, Event.isPost]
    rw [hone]
    omega
  · intro hall
    rw [create_user_all_fail p3
      (fun i hi => emptyObjects_retried_user _ (hall i hi))]
    exact ⟨postCount_replicateP usersUri DEFAULT_RETRY_COUNT, rfl⟩
  · intro h0
    rw [create_user, createUserGo_fail_step p3 0 (by simp [DEFAULT_RETRY_COUNT])
      (emptyObjects_retried_user _ h0)]
    have hpos := createUserGo_post_pos p3 1
    rw [show (Event.httpPost usersUri :: (createUserGo p3 1).1) =
      [Event.httpPost usersUri] ++ (createUserGo p3 1).1 from rfl, postCount_append]
    have hone : postCount [Event.httpPost usersUri] = 1 := by
      simp [postCount, Event.isPost]
    rw [hone]
    omega
  · intro hall
    rw [create_sigmarule_all_fail p4 g3 rule_yaml
      (fun i hi => emptyObjects_retried_user _ (hall i hi))]
    exact ⟨postCount_replicateP sigmarulesUri DEFAULT_RETRY_COUNT, rfl⟩
  · intro h0
    rw [create_sigmarule, createSigmaruleGo_fail_step p4 g3 0
      (by simp [DEFAULT_RETRY_COUNT]) (emptyObjects_retried_user _ h0)]
    have hpos := createSigmaruleGo_post_pos p4 g3 1
    rw [show (Event.httpPost sigmarulesUri :: (createSigmaruleGo p4 g3 1).1) =
      [Event.httpPost sigmarulesUri] ++ (createSigmaruleGo p4 g3 1).1 from rfl,
      postCount_append]
    have hone : postCount [Event.httpPost sigmarulesUri] = 1 := by
      simp [postCount, Event.isPost]
    rw [hone]
    omega

/-- C7, witness: a server answering 200 with objects [] on every attempt
for all four create operations. -/
theorem C7_witness :
    (postCount (create_sketch (fun _ =>
          HttpResult.resp 200 (some (JVal.dict [("objects", JVal.arr [])])))
          (fun j => j) "incident" none).1 = DEFAULT_RETRY_COUNT ∧
      (create_sketch (fun _ =>
          HttpResult.resp 200 (some (JVal.dict [("objects", JVal.arr [])])))
          (fun j => j) "incident" none).2 = Except.error PyErr.runtimeError) ∧
    (2 ≤ postCount (create_sketch (fun _ =>
        HttpResult.resp 200 (some (JVal.dict [("objects", JVal.arr [])])))
        (fun j => j) "incident" none).1) ∧
    (postCount (create_searchindex (fun _ =>
          HttpResult.resp 200 (some (JVal.dict [("objects", JVal.arr [])])))
          (fun j => j)).1 = DEFAULT_RETRY_COUNT ∧
      ∃ e, (create_searchindex (fun _ =>
          HttpResult.resp 200 (some (JVal.dict [("objects", JVal.arr [])])))
          (fun j => j)).2 = Except.error e) ∧
    (2 ≤ postCount (create_searchindex (fun _ =>
        HttpResult.resp 200 (some (JVal.dict [("objects", JVal.arr [])])))
        (fun j => j)).1) ∧
    (postCount (create_user (fun _ =>
          HttpResult.resp 200 (some (JVal.dict [("objects", JVal.arr [])])))).1 =
        DEFAULT_RETRY_COUNT ∧
      (create_user (fun _ =>
          HttpResult.resp 200 (some (JVal.dict [("objects", JVal.arr [])])))).2 =
        Except.error PyErr.runtimeError) ∧
    (2 ≤ postCount (create_user (fun _ =>
        HttpResult.resp 200 (some (JVal.dict [("objects", JVal.arr [])])))).1) ∧
    (postCount (create_sigmarule (fun _ =>
          HttpResult.resp 200 (some (JVal.dict [("objects", JVal.arr [])])))
          (fun j => j) "title: x").1 = DEFAULT_RETRY_COUNT ∧
      (create_sigmarule (fun _ =>
          HttpResult.resp 200 (some (JVal.dict [("objects", JVal.arr [])])))
          (fun j => j) "title: x").2 = Except.error PyErr.runtimeError) ∧
    (2 ≤ postCount (create_sigmarule (fun _ =>
        HttpResult.resp 200 (some (JVal.dict [("objects", JVal.arr [])])))
        (fun j => j) "title: x").1) := by
  have h := C7_theorem "incident" "title: x" (by decide)
    (fun _ => HttpResult.resp 200 (some (JVal.dict [("objects", JVal.arr [])])))
    (fun _ => HttpResult.resp 200 (some (JVal.dict [("objects", JVal.arr [])])))
    (fun _ => HttpResult.resp 200 (some (JVal.dict [("objects", JVal.arr [])])))
    (fun _ => HttpResult.resp 200 (some (JVal.dict [("objects", JVal.arr [])])))
    (fun j => j) (fun j => j) (fun j => j)
  exact ⟨h.1 (by decide), h.2.1 (by decide), h.2.2.1 (by decide),
    h.2.2.2.1 (by decide), h.2.2.2.2.1 (by decide), h.2.2.2.2.2.1 (by decide),
    h.2.2.2.2.2.2.1 (by decide), h.2.2.2.2.2.2.2 (by decide)⟩

theorem mapM_ok_length {α β : Type} (f : α → Except PyErr β) :
    ∀ (xs : List α) (ys : List β), xs.mapM f = .ok ys → ys.length = xs.length := by
  intro xs
  induction xs with
  | nil =>
      intro ys h
      have h0 : Except.ok ([] : List β) = Except.ok ys := h
      cases h0
      rfl
  | cons a l ih =>
      intro ys h
      rw [List.mapM_cons] at h
      cases hf : f a with
      | error e => rw [hf] at h; simp [Bind.bind, Except.bind] at h
      | ok b =>
          rw [hf] at h
          cases hl : l.mapM f with
          | error e =>
              rw [hl] at h
              simp [Bind.bind, Except.bind] at h
          | ok bs =>
              rw [hl] at h
              simp [Bind.bind, Except.bind, Pure.pure, Except.pure] at h
              rw [← h]
              simp [ih bs hl]

theorem chainYield_length (ds : Nat → JVal) :
    ∀ (pages : List Nat) (ys : List (JVal × JVal)),
      chainYield ds pages = .ok ys →
      ys.length = (pages.map (fun p => (objectsList (ds p)).length)).sum := by
  intro pages
  induction pages with
  | nil => intro ys h; simp [chainYield] at h; simp [← h]
  | cons p rest ih =>
      intro ys h
      rw [chainYield] at h
      cases hp : pageItems (ds p) with
      | error e => rw [hp] at h; simp at h
      | ok items =>
          rw [hp] at h
          cases hr : chainYield ds rest with
          | error e => rw [hr] at h; simp at h
          | ok more =>
              rw [hr] at h
              simp at h
              rw [← h]
              have hlen := mapM_ok_length sketchEntry (objectsList (ds p)) items hp
              simp [hlen, ih more hr]

theorem pageChain_head (ds : Nat → JVal) (page n : Nat)
    (h : chainStops ds page n = true) :
    (pageChain ds page n).head? = some page := by
  cases n with
  | zero => simp [chainStops] at h
  | succ n => simp [pageChain]

theorem pageChain_getLast (ds : Nat → JVal) :
    ∀ n page, chainStops ds page n = true →
      ∃ l, (pageChain ds page n).getLast? = some l ∧ metaNextPage (ds l) = none := by
  intro n
  induction n with
  | zero => intro page h; simp [chainStops] at h
  | succ n ih =>
      intro page h
      rw [chainStops] at h
      cases hnext : metaNextPage (ds page) with
      | none => exact ⟨page, by simp [pageChain, hnext], hnext⟩
      | some next =>
          rw [hnext] at h
          obtain ⟨l, hl, hln⟩ := ih next h
          refine ⟨l, ?_, hln⟩
          cases n with
          | zero => simp [chainStops] at h
          | succ m =>
              have hexp : pageChain ds page (m + 1 + 1) =
                  page :: pageChain ds next (m + 1) := by
                rw [pageChain.eq_def]
                simp [hnext]
              have hexp2 : pageChain ds next (m + 1) =
                  next :: (match metaNextPage (ds next) with
                    | none => []
                    | some q => pageChain ds q m) := by
                rw [pageChain.eq_def]
              rw [hexp, hexp2]
              rw [hexp2] at hl
              rw [List.getLast?_cons_cons]
              exact hl

theorem listSketchesGo_stops (ds : Nat → JVal) :
    ∀ n page fuel, chainStops ds page n = true → n ≤ fuel →
      (∀ p, p ∈ pageChain ds page n → isOkE (pageItems (ds p)) = true) →
      listSketchesGo ds page fuel =
        ((pageChain ds page n).map (Event.httpGetPage sketchesUri),
          chainYield ds (pageChain ds page n)) := by
  intro n
  induction n with
  | zero => intro page fuel h _ _; simp [chainStops] at h
  | succ n ih =>
      intro page fuel h hfuel hwf
      cases fuel with
      | zero => omega
      | succ f =>
          have hself : isOkE (pageItems (ds page)) = true := by
            refine hwf page ?_
            rw [pageChain]
            exact List.mem_cons_self _ _
          obtain ⟨items, hitems⟩ : ∃ items, pageItems (ds page) = .ok items := by
            cases hp : pageItems (ds page) with
            | error e => rw [hp] at hself; simp [isOkE] at hself
            | ok its => exact ⟨its, rfl⟩
          rw [chainStops] at h
          rw [listSketchesGo]
          rw [show (objectsList (ds page)).mapM sketchEntry = pageItems (ds page)
            from rfl, hitems]
          cases hnext : metaNextPage (ds page) with
          | none =>
              rw [pageChain, hnext, chainYield, hitems, chainYield]
              simp
          | some next =>
              rw [hnext] at h
              have hrec := ih next f h (by omega) (by
                intro p hp
                refine hwf p ?_
                rw [pageChain, hnext]
                exact List.mem_cons_of_mem _ hp)
              rw [pageChain, hnext, chainYield, hitems]
              simp [hrec, chainYield]
              cases chainYield ds (pageChain ds next n) <;> rfl

/-- C8: over a fixed server dataset whose next-page chain from page 1
reaches a falsy next_page within n pages, list_sketches starts pagination
at page 1, issues one GET per page of the chain, yields one Sketch per
server-returned entry of the objects list of each page (the yield count is the
sum of the objects lengths), terminates exactly at the first page whose
meta.next_page is absent or falsy, and two independent listing calls over
the unchanged dataset produce the same sequence of sketch ids in the same
order. -/
theorem C8_theorem (ds : Nat → JVal) (n fuel1 fuel2 : Nat)
    (hstops : chainStops ds 1 n = true) (hf1 : n ≤ fuel1) (hf2 : n ≤ fuel2)
    (hwf : ∀ p, p ∈ pageChain ds 1 n → isOkE (pageItems (ds p)) = true) :
    list_sketches ds fuel1 = list_sketches ds fuel2 ∧
      (list_sketches ds fuel1).1 =
        (pageChain ds 1 n).map (Event.httpGetPage sketchesUri) ∧
      (pageChain ds 1 n).head? = some 1 ∧
      (list_sketches ds fuel1).2 = chainYield ds (pageChain ds 1 n) ∧
      (∀ ys, (list_sketches ds fuel1).2 = Except.ok ys →
        ys.length = ((pageChain ds 1 n).map
          (fun p => (objectsList (ds p)).length)).sum) ∧
      (∃ l, (pageChain ds 1 n).getLast? = some l ∧
        metaNextPage (ds l) = none) := by
  have h1 := listSketchesGo_stops ds n 1 fuel1 hstops hf1 hwf
  have h2 := listSketchesGo_stops ds n 1 fuel2 hstops hf2 hwf
  rw [list_sketches, list_sketches, h1, h2]
  refine ⟨rfl, rfl, pageChain_head ds 1 n hstops, rfl, ?_,
    pageChain_getLast ds n 1 hstops⟩
  intro ys hy
  exact chainYield_length ds (pageChain ds 1 n) ys hy

/-- C8, witness: a concrete two-page dataset (page 1 with two sketches
and next_page 2, page 2 with one sketch and no next_page), listed twice
with different fuel. -/
theorem C8_witness :
    list_sketches (fun p =>
        if p = 1 then
          JVal.dict [("objects", JVal.arr
            [JVal.dict [("id", JVal.nat 1), ("name", JVal.str "a")],
             JVal.dict [("id", JVal.nat 2), ("name", JVal.str "b")]]),
            ("meta", JVal.dict [("next_page", JVal.nat 2)])]
        else
          JVal.dict [("objects", JVal.arr
            [JVal.dict [("id", JVal.nat 3), ("name", JVal.str "c")]]),
            ("meta", JVal.dict [])]) 2 =
      list_sketches (fun p =>
        if p = 1 then
          JVal.dict [("objects", JVal.arr
            [JVal.dict [("id", JVal.nat 1), ("name", JVal.str "a")],
             JVal.dict [("id", JVal.nat 2), ("name", JVal.str "b")]]),
            ("meta", JVal.dict [("next_page", JVal.nat 2)])]
        else
          JVal.dict [("objects", JVal.arr
            [JVal.dict [("id", JVal.nat 3), ("name", JVal.str "c")]]),
            ("meta", JVal.dict [])]) 9 ∧
    (pageChain (fun p =>
        if p = 1 then
          JVal.dict [("objects", JVal.arr
            [JVal.dict [("id", JVal.nat 1), ("name", JVal.str "a")],
             JVal.dict [("id", JVal.nat 2), ("name", JVal.str "b")]]),
            ("meta", JVal.dict [("next_page", JVal.nat 2)])]
        else
          JVal.dict [("objects", JVal.arr
            [JVal.dict [("id", JVal.nat 3), ("name", JVal.str "c")]]),
            ("meta", JVal.dict [])]) 1 2).head? = some 1 := by
  have h := C8_theorem (fun p =>
      if p = 1 then
        JVal.dict [("objects", JVal.arr
          [JVal.dict [("id", JVal.nat 1), ("name", JVal.str "a")],
           JVal.dict [("id", JVal.nat 2), ("name", JVal.str "b")]]),
          ("meta", JVal.dict [("next_page", JVal.nat 2)])]
      else
        JVal.dict [("objects", JVal.arr
          [JVal.dict [("id", JVal.nat 3), ("name", JVal.str "c")]]),
          ("meta", JVal.dict [])]) 2 2 9 (by decide) (by decide) (by decide)
    (by decide)
  exact ⟨h.1, h.2.2.1⟩

theorem mapM_cons_error {α β : Type} (f : α → Except PyErr β) (a : α)
    (l : List α) (e : PyErr) (hf : f a = .error e) :
    (a :: l).mapM f = .error e := by
  rw [List.mapM_cons, hf]
  rfl

theorem mapM_ok_forall {α β : Type} (f : α → Except PyErr β) :
    ∀ (xs : List α) (ys : List β), xs.mapM f = .ok ys →
      ∀ a, a ∈ xs → ∃ b, f a = .ok b := by
  intro xs
  induction xs with
  | nil => intro ys h a ha; simp at ha
  | cons x l ih =>
      intro ys h a ha
      rw [List.mapM_cons] at h
      cases hx : f x with
      | error e => rw [hx] at h; simp [Bind.bind, Except.bind] at h
      | ok b =>
          rw [hx] at h
          cases hl : l.mapM f with
          | error e => rw [hl] at h; simp [Bind.bind, Except.bind] at h
          | ok bs =>
              cases ha with
              | head => exact ⟨b, hx⟩
              | tail _ hmem => exact ih bs hl a hmem

theorem list_users_eval_sub_err (sess : Nat → HttpResult) (d V : JVal) (e : PyErr)
    (hfetch : (fetch_resource_data sess usersUri).2 = Except.ok d)
    (hV : d.getD "objects" (.arr []) = V)
    (hP : pySubscript0 V = .error e) :
    (list_users sess).2 = Except.error e := by
  rw [list_users]
  simp [hfetch, hV, hP]

theorem list_users_eval_iter_err (sess : Nat → HttpResult) (d V first : JVal)
    (e : PyErr)
    (hfetch : (fetch_resource_data sess usersUri).2 = Except.ok d)
    (hV : d.getD "objects" (.arr []) = V)
    (hP : pySubscript0 V = .ok first)
    (hI : pyIterate first = .error e) :
    (list_users sess).2 = Except.error e := by
  rw [list_users]
  simp [hfetch, hV, hP, hI]

theorem list_users_eval_ok (sess : Nat → HttpResult) (d V first : JVal)
    (user_dicts : List JVal)
    (hfetch : (fetch_resource_data sess usersUri).2 = Except.ok d)
    (hV : d.getD "objects" (.arr []) = V)
    (hP : pySubscript0 V = .ok first)
    (hI : pyIterate first = .ok user_dicts) :
    (list_users sess).2 =
      user_dicts.mapM (fun user_dict => dictField user_dict "id") := by
  rw [list_users]
  simp [hfetch, hV, hP, hI]

/-- C9: list_users indexes the first element of the fetched objects
list without any guard: a fetched payload whose objects field is an empty
list, or absent (giving the [] default), raises IndexError when the
generator is consumed instead of yielding an empty sequence; when
objects[0] is a list of user dicts it yields one User (by id) per
element; and User objects are yielded only when objects[0] is itself a
list of user dicts -- every run that yields a non-empty sequence had a
list-of-subscriptable-dicts objects[0]. -/
theorem C9_theorem (sess : Nat → HttpResult) (d : JVal)
    (hfetch : (fetch_resource_data sess usersUri).2 = Except.ok d) :
    ((d.get? "objects" = none ∨ d.get? "objects" = some (JVal.arr [])) →
      (list_users sess).2 = Except.error PyErr.indexError) ∧
    (∀ us rest, d.get? "objects" = some (JVal.arr (JVal.arr us :: rest)) →
      (list_users sess).2 =
        us.mapM (fun user_dict => dictField user_dict "id")) ∧
    (∀ ys, (list_users sess).2 = Except.ok ys → ys ≠ [] →
      ∃ us rest, d.get? "objects" = some (JVal.arr (JVal.arr us :: rest)) ∧
        ∀ u, u ∈ us → ∃ v, dictField u "id" = Except.ok v) := by
  refine ⟨?_, ?_, ?_⟩
  · intro hobj
    have hV : d.getD "objects" (.arr []) = .arr [] := by
      cases hobj with
      | inl habsent => simp [JVal.getD, habsent]
      | inr hempty => simp [JVal.getD, hempty]
    exact list_users_eval_sub_err sess d (.arr []) .indexError hfetch hV rfl
  · intro us rest hobj
    exact list_users_eval_ok sess d (.arr (.arr us :: rest)) (.arr us) us hfetch
      (by simp [JVal.getD, hobj]) rfl rfl
  · intro ys hy hne
    cases hVal : d.get? "objects" with
    | none =>
        rw [list_users_eval_sub_err sess d (.arr []) .indexError hfetch
          (by simp [JVal.getD, hVal]) rfl] at hy
        simp at hy
    | some V =>
        have hV : d.getD "objects" (.arr []) = V := by simp [JVal.getD, hVal]
        cases V with
        | null =>
            rw [list_users_eval_sub_err sess d .null .typeError hfetch hV rfl] at hy
            simp at hy
        | nat k =>
            rw [list_users_eval_sub_err sess d (.nat k) .typeError hfetch hV rfl]
              at hy
            simp at hy
        | dict fs =>
            rw [list_users_eval_sub_err sess d (.dict fs) .keyError hfetch hV rfl]
              at hy
            simp at hy
        | str s =>
            cases hs : s.data with
            | nil =>
                rw [list_users_eval_sub_err sess d (.str s) .indexError hfetch hV
                  (by rw [pySubscript0]; rw [hs])] at hy
                simp at hy
            | cons c cs =>
                rw [list_users_eval_ok sess d (.str s)
                  (.str (String.mk [c])) [JVal.str (String.mk [c])] hfetch hV
                  (by rw [pySubscript0]; rw [hs]) rfl] at hy
                have hmc := mapM_cons_error
                  (fun user_dict => dictField user_dict "id")
                  (JVal.str (String.mk [c])) [] PyErr.typeError rfl
                rw [hmc] at hy
                simp at hy
        | arr xs =>
            cases xs with
            | nil =>
                rw [list_users_eval_sub_err sess d (.arr []) .indexError hfetch
                  hV rfl] at hy
                simp at hy
            | cons first rest =>
                cases first with
                | null =>
                    rw [list_users_eval_iter_err sess d (.arr (.null :: rest))
                      .null .typeError hfetch hV rfl rfl] at hy
                    simp at hy
                | nat k =>
                    rw [list_users_eval_iter_err sess d (.arr (.nat k :: rest))
                      (.nat k) .typeError hfetch hV rfl rfl] at hy
                    simp at hy
                | str s =>
                    rw [list_users_eval_ok sess d (.arr (.str s :: rest)) (.str s)
                      (s.data.map (fun c => JVal.str (String.mk [c]))) hfetch hV
                      rfl rfl] at hy
                    cases hs : s.data with
                    | nil =>
                        rw [hs] at hy
                        have h0 : Except.ok ([] : List JVal) = Except.ok ys := hy
                        cases h0
                        exact absurd rfl hne
                    | cons c cs =>
                        rw [hs, List.map_cons] at hy
                        have hmc := mapM_cons_error
                          (fun user_dict => dictField user_dict "id")
                          (JVal.str (String.mk [c]))
                          (cs.map (fun c2 => JVal.str (String.mk [c2])))
                          PyErr.typeError rfl
                        rw [hmc] at hy
                        simp at hy
                | dict fs =>
                    cases fs with
                    | nil =>
                        rw [list_users_eval_ok sess d (.arr (.dict [] :: rest))
                          (.dict []) [] hfetch hV rfl rfl] at hy
                        have h0 : Except.ok ([] : List JVal) = Except.ok ys := hy
                        cases h0
                        exact absurd rfl hne
                    | cons kv fs2 =>
                        rw [list_users_eval_ok sess d
                          (.arr (.dict (kv :: fs2) :: rest)) (.dict (kv :: fs2))
                          (JVal.str kv.1 ::
                            fs2.map (fun kv2 : String × JVal => JVal.str kv2.1))
                          hfetch hV rfl rfl] at hy
                        have hmc := mapM_cons_error
                          (fun user_dict => dictField user_dict "id")
                          (JVal.str kv.1)
                          (fs2.map (fun kv2 : String × JVal => JVal.str kv2.1))
                          PyErr.typeError rfl
                        rw [hmc] at hy
                        simp at hy
                | arr us =>
                    refine ⟨us, rest, rfl, ?_⟩
                    have hrun := list_users_eval_ok sess d
                      (.arr (.arr us :: rest)) (.arr us) us hfetch hV rfl rfl
                    rw [hrun] at hy
                    exact mapM_ok_forall _ us ys hy

/-- C9, witness: a 200 response with objects [] raises IndexError; one
whose objects[0] is a list of two user dicts yields their two ids; the
two-id run is non-empty, so the only-when conjunct recovers the
list-of-dicts shape of objects[0]. -/
theorem C9_witness :
    (list_users (fun _ =>
        HttpResult.resp 200 (some (JVal.dict [("objects", JVal.arr [])])))).2 =
      Except.error PyErr.indexError ∧
    (list_users (fun _ => HttpResult.resp 200 (some (JVal.dict [("objects",
        JVal.arr [JVal.arr [JVal.dict [("id", JVal.nat 7)],
          JVal.dict [("id", JVal.nat 8)]]])])))).2 =
      Except.ok [JVal.nat 7, JVal.nat 8] ∧
    (∃ us rest, (JVal.dict [("objects",
        JVal.arr [JVal.arr [JVal.dict [("id", JVal.nat 7)],
          JVal.dict [("id", JVal.nat 8)]]])]).get? "objects" =
        some (JVal.arr (JVal.arr us :: rest)) ∧
      ∀ u, u ∈ us → ∃ v, dictField u "id" = Except.ok v) := by
  have h1 := C9_theorem (fun _ =>
      HttpResult.resp 200 (some (JVal.dict [("objects", JVal.arr [])])))
    (JVal.dict [("objects", JVal.arr [])])
    (by
      rw [fetch_resource_data,
        fetchFrom_success _ _ 1 (JVal.dict [("objects", JVal.arr [])]) (by rfl)])
  have h2 := C9_theorem (fun _ => HttpResult.resp 200 (some (JVal.dict [("objects",
      JVal.arr [JVal.arr [JVal.dict [("id", JVal.nat 7)],
        JVal.dict [("id", JVal.nat 8)]]])])))
    (JVal.dict [("objects", JVal.arr [JVal.arr [JVal.dict [("id", JVal.nat 7)],
      JVal.dict [("id", JVal.nat 8)]]])])
    (by
      rw [fetch_resource_data,
        fetchFrom_success _ _ 1 (JVal.dict [("objects",
          JVal.arr [JVal.arr [JVal.dict [("id", JVal.nat 7)],
            JVal.dict [("id", JVal.nat 8)]]])]) (by rfl)])
  have hyield : (list_users (fun _ => HttpResult.resp 200 (some (JVal.dict
      [("objects", JVal.arr [JVal.arr [JVal.dict [("id", JVal.nat 7)],
        JVal.dict [("id", JVal.nat 8)]]])])))).2 =
      Except.ok [JVal.nat 7, JVal.nat 8] := by
    have := h2.2.1 [JVal.dict [("id", JVal.nat 7)], JVal.dict [("id", JVal.nat 8)]]
      [] rfl
    rw [this]
    rfl
  exact ⟨h1.1 (Or.inr rfl), hyield,
    h2.2.2 [JVal.nat 7, JVal.nat 8] hyield (by simp)⟩

/-- C10: when the objects field of the fetched payload is absent or falsy, the
generator returned by list_searchindices yields exactly one element, the
value None, and then stops -- it does not yield an empty sequence. -/
theorem C10_theorem (sess : Nat → HttpResult) (d : JVal)
    (hfetch : (fetch_resource_data sess searchindicesUri).2 = Except.ok d)
    (hfalsy : (d.getD "objects" .null).truthy = false) :
    (list_searchindices sess).2 = Except.ok [none] ∧
    ∀ ys, (list_searchindices sess).2 = Except.ok ys → ys.length = 1 := by
  have hmain : (list_searchindices sess).2 = Except.ok [none] := by
    rw [list_searchindices]
    simp [hfetch, hfalsy]
  refine ⟨hmain, ?_⟩
  intro ys hy
  rw [hmain] at hy
  cases hy
  rfl

/-- C10, witness: a 200 response whose payload has no objects key (falsy
default) yields exactly the single element None. -/
theorem C10_witness :
    (list_searchindices (fun _ =>
        HttpResult.resp 200 (some (JVal.dict [("meta", JVal.nat 1)])))).2 =
      Except.ok [none] ∧
    ∀ ys, (list_searchindices (fun _ =>
        HttpResult.resp 200 (some (JVal.dict [("meta", JVal.nat 1)])))).2 =
      Except.ok ys → ys.length = 1 :=
  C10_theorem (fun _ => HttpResult.resp 200 (some (JVal.dict [("meta", JVal.nat 1)])))
    (JVal.dict [("meta", JVal.nat 1)])
    (by
      rw [fetch_resource_data,
        fetchFrom_success _ _ 1 (JVal.dict [("meta", JVal.nat 1)]) (by rfl)])
    (by rfl)
